import Mathlib

/-!
# DirectInput device discovery and polling manager

A shallow embedding of `direct_input_context.h` / `direct_input_context.cpp`:
the enumeration callback that collects a device's control objects, the sort by
raw offset, the registry reconciliation of `UpdateDetection`, the per-tick
sampling of `UpdateState`, `Shutdown`, and the index based accessors.

Machine integers of type `DWORD` are natural numbers reduced modulo `2 ^ 32`
wherever the source stores a computed value into a `DWORD`.
-/

namespace DirectInput

/-! ## Platform constants -/

/-- Storing a value into a `DWORD` keeps it modulo `2 ^ 32`. -/
def toDWORD (n : Nat) : Nat := n % 2 ^ 32

/-- Modelled from the spec: the platform header `dinput.h` is not among the
sources; object-type flag of an axis object (`DIDFT_RELAXIS | DIDFT_ABSAXIS`). -/
def DIDFT_AXIS : Nat := 0x00000003

/-- Modelled from the spec: the platform header `dinput.h` is not among the
sources; object-type flag of a button object (`DIDFT_PSHBUTTON | DIDFT_TGLBUTTON`). -/
def DIDFT_BUTTON : Nat := 0x0000000C

/-- Modelled from the spec: the platform header `dinput.h` is not among the
sources; object-type flag of a point-of-view (hat) object. -/
def DIDFT_POV : Nat := 0x00000010

/-- Modelled from the spec: the platform header `dinput.h` is not among the
sources; byte offset of `lX` in the fixed-layout state record `DIJOYSTATE2`
(six `LONG` axes, two `LONG` sliders, four `DWORD` hats, 128 `BYTE` buttons). -/
def DIJOFS_X : Nat := 0

/-- Modelled from the spec: `DIJOFS_Y` of the platform header `dinput.h`, which
is not among the sources; byte offset of `lY` in the state record. -/
def DIJOFS_Y : Nat := 4

/-- Modelled from the spec: `DIJOFS_Z` of the platform header `dinput.h`, which
is not among the sources; byte offset of `lZ` in the state record. -/
def DIJOFS_Z : Nat := 8

/-- Modelled from the spec: `DIJOFS_RX` of the platform header `dinput.h`, which
is not among the sources; byte offset of `lRx` in the state record. -/
def DIJOFS_RX : Nat := 12

/-- Modelled from the spec: `DIJOFS_RY` of the platform header `dinput.h`, which
is not among the sources; byte offset of `lRy` in the state record. -/
def DIJOFS_RY : Nat := 16

/-- Modelled from the spec: `DIJOFS_RZ` of the platform header `dinput.h`, which
is not among the sources; byte offset of `lRz` in the state record. -/
def DIJOFS_RZ : Nat := 20

/-- Modelled from the spec: the macro `DIJOFS_SLIDER` of the platform header
`dinput.h`, which is not among the sources; byte offset of `rglSlider[n]` in
the state record, `offsetof(rglSlider) + n * sizeof(LONG)`. -/
def DIJOFS_SLIDER (n : Nat) : Nat := 24 + n * 4

/-- Modelled from the spec: the macro `DIJOFS_POV` of the platform header
`dinput.h`, which is not among the sources; byte offset of `rgdwPOV[n]` in the
state record, `offsetof(rgdwPOV) + n * sizeof(DWORD)`. -/
def DIJOFS_POV (n : Nat) : Nat := 32 + n * 4

/-- Modelled from the spec: the macro `DIJOFS_BUTTON` of the platform header
`dinput.h`, which is not among the sources; byte offset of `rgbButtons[n]` in
the state record, `offsetof(rgbButtons) + n`. -/
def DIJOFS_BUTTON (n : Nat) : Nat := 48 + n

/-- Modelled from the spec: the object type identifiers of the platform header
`dinput.h`, which is not among the sources. The callback compares `guidType`
against the seven axis identifiers; every other value (among them the
identifiers of buttons, keys and hats) takes the final `else`. -/
inductive GuidType where
  | GUID_XAxis
  | GUID_YAxis
  | GUID_ZAxis
  | GUID_RxAxis
  | GUID_RyAxis
  | GUID_RzAxis
  | GUID_Slider
  | GUID_Button
  | GUID_Key
  | GUID_POV
  | GUID_Unknown
  deriving DecidableEq, Repr

/-- Modelled from the spec: the platform struct `DIDEVICEOBJECTINSTANCE` of
`dinput.h`, which is not among the sources; the two fields the callback reads. -/
structure DIDEVICEOBJECTINSTANCE where
  guidType : GuidType
  dwType : Nat
  deriving DecidableEq, Repr

/-! ## Data model (`direct_input_context.h`) -/

/-- The source enum `InputType`. -/
inductive InputType where
  | kPOV
  | kAxis
  | kButton
  deriving DecidableEq, Repr

/-- The source struct `Input`: a control descriptor. -/
structure Input where
  type : InputType
  index : Nat
  offset : Nat
  deriving DecidableEq, Repr

/-- The local struct `InputInfo` of `UpdateDetection`. -/
structure InputInfo where
  povs : List Input := []
  buttons : List Input := []
  axes : List Input := []
  slider_count : Nat := 0
  deriving DecidableEq, Repr

/-! ## Object enumeration -/

/-- The tail of the axis branch of the callback: `axes.push_back(Input{kAxis, index, offset})`.
The two `SetProperty` calls that follow it (range and dead zone) have their
results discarded and touch no field of `InputInfo`. -/
def pushAxis (input_info : InputInfo) (index offset : Nat) : InputInfo :=
  { input_info with
    axes := input_info.axes ++ [{ type := InputType.kAxis, index := index, offset := offset }] }

/-- The lambda `DIEnumDeviceObjectsCallback`, as a step on the captured
`InputInfo`. It always answers `DIENUM_CONTINUE`. -/
def DIEnumDeviceObjectsCallback (input_info : InputInfo)
    (lpddoi : DIDEVICEOBJECTINSTANCE) : InputInfo :=
  if lpddoi.dwType &&& DIDFT_POV ≠ 0 then
    let index := toDWORD input_info.povs.length
    { input_info with
      povs := input_info.povs ++
        [{ type := InputType.kPOV, index := index, offset := toDWORD (DIJOFS_POV index) }] }
  else if lpddoi.dwType &&& DIDFT_BUTTON ≠ 0 then
    let index := toDWORD input_info.buttons.length
    { input_info with
      buttons := input_info.buttons ++
        [{ type := InputType.kButton, index := index, offset := toDWORD (DIJOFS_BUTTON index) }] }
  else if lpddoi.dwType &&& DIDFT_AXIS ≠ 0 then
    let index := toDWORD input_info.axes.length
    match lpddoi.guidType with
    | GuidType.GUID_XAxis => pushAxis input_info index DIJOFS_X
    | GuidType.GUID_YAxis => pushAxis input_info index DIJOFS_Y
    | GuidType.GUID_ZAxis => pushAxis input_info index DIJOFS_Z
    | GuidType.GUID_RxAxis => pushAxis input_info index DIJOFS_RX
    | GuidType.GUID_RyAxis => pushAxis input_info index DIJOFS_RY
    | GuidType.GUID_RzAxis => pushAxis input_info index DIJOFS_RZ
    | GuidType.GUID_Slider =>
      let slider_index := input_info.slider_count
      pushAxis { input_info with slider_count := toDWORD (slider_index + 1) } index
        (toDWORD (DIJOFS_SLIDER slider_index))
    | _ => input_info
  else
    input_info

/-- The call `pDevice->EnumObjects(callback, &capture, ...)`: the platform
invokes the callback once per control object, in the platform's order, on an
initially empty `InputInfo`; the callback never stops the enumeration. -/
def EnumObjects (objects : List DIDEVICEOBJECTINSTANCE) : InputInfo :=
  objects.foldl DIEnumDeviceObjectsCallback {}

/-- The comparator of the three `std::sort` calls, `lhs.offset < rhs.offset`. -/
def offsetLess (lhs rhs : Input) : Bool := decide (lhs.offset < rhs.offset)

/-- The order in which `std::sort` with comparator `offsetLess` leaves two
elements: the later one does not compare less than the earlier one. -/
def offsetLe (a b : Input) : Prop := offsetLess b a = false

instance : DecidableRel offsetLe := fun a b => by
  unfold offsetLe; infer_instance

instance : IsTotal Input offsetLe :=
  ⟨fun a b => by
    simp only [offsetLe, offsetLess, decide_eq_false_iff_not, Nat.not_lt]
    exact Nat.le_total _ _⟩

instance : IsTrans Input offsetLe :=
  ⟨fun a b c => by
    simp only [offsetLe, offsetLess, decide_eq_false_iff_not, Nat.not_lt]
    exact fun h₁ h₂ => Nat.le_trans h₁ h₂⟩

/-- The three `std::sort` calls. `std::sort` promises only a permutation of its
input in which no element compares less than an earlier one; insertion sort is
one such algorithm. -/
def sortByOffset (l : List Input) : List Input := l.insertionSort offsetLe

/-- The block of `UpdateDetection` from `EnumObjects` to the end of the three
sorts: the descriptor lists that go into the device record. -/
def enumerateAndSort (objects : List DIDEVICEOBJECTINSTANCE) : InputInfo :=
  let input_info := EnumObjects objects
  { input_info with
    povs := sortByOffset input_info.povs
    buttons := sortByOffset input_info.buttons
    axes := sortByOffset input_info.axes }

/-- The descriptor the callback appends for one object, read off the callback
itself: the last element of whichever list grew, and nothing when no list grew. -/
def pushedBy (input_info : InputInfo) (lpddoi : DIDEVICEOBJECTINSTANCE) : Option Input :=
  let after := DIEnumDeviceObjectsCallback input_info lpddoi
  if after.povs.length ≠ input_info.povs.length then after.povs.getLast?
  else if after.buttons.length ≠ input_info.buttons.length then after.buttons.getLast?
  else if after.axes.length ≠ input_info.axes.length then after.axes.getLast?
  else none

/-- The run of the callback over an enumeration, recording for every object
the descriptor it was given. -/
def assignmentFrom : InputInfo → List DIDEVICEOBJECTINSTANCE →
    List (DIDEVICEOBJECTINSTANCE × Option Input)
  | _, [] => []
  | input_info, o :: rest =>
    (o, pushedBy input_info o) :: assignmentFrom (DIEnumDeviceObjectsCallback input_info o) rest

/-- The assignment of descriptors to objects made by one `EnumObjects` call. -/
def assignment (objects : List DIDEVICEOBJECTINSTANCE) :
    List (DIDEVICEOBJECTINSTANCE × Option Input) :=
  assignmentFrom {} objects

/-! ## Device records and accessors -/

/-- The device identity `GUID`, a 128-bit value. -/
abbrev GUID := Nat

/-- The identity of a native device object behind an `IDirectInputDevice8*`. -/
abbrev IDirectInputDevice8 := Nat

/-- The identity of the subsystem object behind an `IDirectInput8*`. -/
abbrev IDirectInput8 := Nat

/-- Modelled from the spec: the platform result code `HRESULT`, a signed
32-bit value whose declaration is not among the sources. -/
abbrev HRESULT := Int

/-- Modelled from the spec: the platform macro `FAILED(hr)`, which is not among
the sources; a result code is a failure when it is negative. -/
def FAILED (hr : HRESULT) : Bool := decide (hr < 0)

/-- Modelled from the spec: the platform header `dinput.h` is not among the
sources; result code of a poll whose access to the device was lost
(`0x8007001E` as a signed 32-bit value). -/
def DIERR_INPUTLOST : HRESULT := 0x8007001E - 2 ^ 32

/-- Modelled from the spec: the platform header `dinput.h` is not among the
sources; result code of a poll on a device that is not acquired
(`0x8007000C` as a signed 32-bit value). -/
def DIERR_NOTACQUIRED : HRESULT := 0x8007000C - 2 ^ 32

/-- Modelled from the spec: the platform struct `DIDEVCAPS` of `dinput.h`,
which is not among the sources; the three counts the program reads. -/
structure DIDEVCAPS where
  dwAxes : Nat := 0
  dwButtons : Nat := 0
  dwPOVs : Nat := 0
  deriving DecidableEq, Repr

/-- Modelled from the spec: the fixed-layout state record `DIJOYSTATE2` of the
platform header `dinput.h`, which is not among the sources: the fields the
accessors read, and the remaining velocity, acceleration and force fields as
one block. A value built by `{}` is all zero. -/
structure DIJOYSTATE2 where
  lX : Int := 0
  lY : Int := 0
  lZ : Int := 0
  lRx : Int := 0
  lRy : Int := 0
  lRz : Int := 0
  rglSlider : List Int := List.replicate 2 0
  rgdwPOV : List Nat := List.replicate 4 0
  rgbButtons : List Nat := List.replicate 128 0
  rest : List Int := List.replicate 24 0
  deriving DecidableEq, Repr

/-- The source struct `Device`. -/
structure Device where
  guid : GUID := 0
  name : String := ""
  pDevice : IDirectInputDevice8 := 0
  caps : DIDEVCAPS := {}
  povs : List Input := []
  buttons : List Input := []
  axes : List Input := []
  state : DIJOYSTATE2 := {}
  deriving DecidableEq, Repr

/-- The switch of `GetAxisName` on the descriptor's offset. -/
def axisNameOfOffset (offset : Nat) : String :=
  if offset = DIJOFS_X then "X"
  else if offset = DIJOFS_Y then "Y"
  else if offset = DIJOFS_Z then "Z"
  else if offset = DIJOFS_RX then "Rx"
  else if offset = DIJOFS_RY then "Ry"
  else if offset = DIJOFS_RZ then "Rz"
  else if offset = DIJOFS_SLIDER 0 then "Slider 0"
  else if offset = DIJOFS_SLIDER 1 then "Slider 1"
  else "Unknown"

/-- The method `Device::GetAxisName`; `none` stands for the out-of-range
subscript `axes[index]`. -/
def Device.GetAxisName (device : Device) (index : Nat) : Option String :=
  match device.axes[index]? with
  | none => none
  | some input => some (axisNameOfOffset input.offset)

/-- The method `Device::GetAxisValue`; `none` stands for an out-of-range subscript. -/
def Device.GetAxisValue (device : Device) (index : Nat) : Option Int :=
  match device.axes[index]? with
  | none => none
  | some input =>
    if input.offset = DIJOFS_X then some device.state.lX
    else if input.offset = DIJOFS_Y then some device.state.lY
    else if input.offset = DIJOFS_Z then some device.state.lZ
    else if input.offset = DIJOFS_RX then some device.state.lRx
    else if input.offset = DIJOFS_RY then some device.state.lRy
    else if input.offset = DIJOFS_RZ then some device.state.lRz
    else if input.offset = DIJOFS_SLIDER 0 then device.state.rglSlider[0]?
    else if input.offset = DIJOFS_SLIDER 1 then device.state.rglSlider[1]?
    else some 0

/-- The subscript `(input.offset - DIJOFS_POV(0)) / sizeof(DWORD)` of
`GetPovValue`; the subtraction is unsigned and wraps. -/
def povSlot (offset : Nat) : Nat := ((offset + 2 ^ 64 - DIJOFS_POV 0) % 2 ^ 64) / 4

/-- The subscript `(input.offset - DIJOFS_BUTTON(0)) / sizeof(BYTE)` of
`GetButtonValue`; the subtraction is unsigned and wraps. -/
def buttonSlot (offset : Nat) : Nat := ((offset + 2 ^ 32 - DIJOFS_BUTTON 0) % 2 ^ 32) / 1

/-- The method `Device::GetPovValue`; `none` stands for an out-of-range
subscript of `povs` or of `rgdwPOV`. -/
def Device.GetPovValue (device : Device) (index : Nat) : Option Nat :=
  match device.povs[index]? with
  | none => none
  | some input => device.state.rgdwPOV[povSlot input.offset]?

/-- The method `Device::GetButtonValue`; `none` stands for an out-of-range
subscript of `buttons` or of `rgbButtons`. -/
def Device.GetButtonValue (device : Device) (index : Nat) : Option Nat :=
  match device.buttons[index]? with
  | none => none
  | some input => device.state.rgbButtons[buttonSlot input.offset]?

/-! ## The registry and the platform -/

/-- The members of `DirectInputContext`: the subsystem pointer (`none` is
`nullptr`) and the map `devices_` as its list of entries in iteration order. -/
structure DirectInputContext where
  pDI_ : Option IDirectInput8 := none
  devices_ : List (GUID × Device) := []
  deriving DecidableEq, Repr

/-- A context together with the record of `Release` calls made so far: one
entry per call on a device object, one entry per call on the subsystem object. -/
structure Runtime where
  ctx : DirectInputContext := {}
  deviceReleases : List IDirectInputDevice8 := []
  contextReleases : List IDirectInput8 := []
  deriving DecidableEq, Repr

/-- How often `Release` has been called on a device object. -/
def Runtime.releaseCount (s : Runtime) (pDevice : IDirectInputDevice8) : Nat :=
  s.deviceReleases.count pDevice

/-- The key set of the registry. -/
def DirectInputContext.keys (c : DirectInputContext) : List GUID :=
  c.devices_.map Prod.fst

/-- The method `GetDeviceGuids`. -/
def DirectInputContext.GetDeviceGuids (c : DirectInputContext) : List GUID :=
  c.devices_.foldl (fun guids kvp => guids ++ [kvp.1]) []

/-- The method `GetDevice`: `devices_.find(guid)`, `none` for `nullptr`. -/
def DirectInputContext.GetDevice (c : DirectInputContext) (guid : GUID) : Option Device :=
  match c.devices_.find? (fun kvp => kvp.1 == guid) with
  | none => none
  | some kvp => some kvp.2

/-- The answers of the platform to the calls `UpdateDetection` makes, for the
duration of one call: each answer is a result code together with the value
written through the out-parameter. -/
structure Platform where
  EnumDevices : List GUID
  CreateDevice : GUID → HRESULT × IDirectInputDevice8
  GetProductName : IDirectInputDevice8 → HRESULT × String
  SetCooperativeLevel : IDirectInputDevice8 → HRESULT
  SetDataFormat : IDirectInputDevice8 → HRESULT
  GetCapabilities : IDirectInputDevice8 → HRESULT × DIDEVCAPS
  EnumObjects : IDirectInputDevice8 → List DIDEVICEOBJECTINSTANCE

/-- The call `pDevice->Release()` on a device object. -/
def Runtime.release (s : Runtime) (pDevice : IDirectInputDevice8) : Runtime :=
  { s with deviceReleases := s.deviceReleases ++ [pDevice] }

/-- The call `std::erase_if(devices_, pred)`: the entries satisfying `pred`
are erased. `Device` has no destructor, so erasing an entry calls nothing. -/
def erase_if (devices_ : List (GUID × Device)) (pred : GUID × Device → Bool) :
    List (GUID × Device) :=
  devices_.filter (fun kvp => !pred kvp)

/-- The assignment `devices_[guid] = device`: the entry of `guid` is
overwritten when present and a new entry is made otherwise. -/
def mapAssign (devices_ : List (GUID × Device)) (guid : GUID) (device : Device) :
    List (GUID × Device) :=
  if (devices_.find? (fun kvp => kvp.1 == guid)).isSome then
    devices_.map (fun kvp => if kvp.1 == guid then (guid, device) else kvp)
  else
    devices_ ++ [(guid, device)]

/-- The device record `UpdateDetection` builds once the handle is open and
configured: the objects are enumerated, the three lists sorted, and the record
assembled; its `state` is the zero record. -/
def buildDevice (device_guid : GUID) (product_name : String) (pDevice : IDirectInputDevice8)
    (caps : DIDEVCAPS) (objects : List DIDEVICEOBJECTINSTANCE) : Device :=
  let input_info := enumerateAndSort objects
  { guid := device_guid
    name := product_name
    pDevice := pDevice
    caps := caps
    povs := input_info.povs
    buttons := input_info.buttons
    axes := input_info.axes }

/-- One iteration of the loop `for (GUID const& device_guid : device_guids)`
of `UpdateDetection`. -/
def discoverDevice (p : Platform) (s : Runtime) (device_guid : GUID) : Runtime :=
  if (s.ctx.devices_.find? (fun kvp => kvp.1 == device_guid)).isSome then s
  else
    let created := p.CreateDevice device_guid
    let pDevice := created.2
    if FAILED created.1 then s
    else
      let named := p.GetProductName pDevice
      if FAILED named.1 then s.release pDevice
      else
        let product_name := named.2
        if FAILED (p.SetCooperativeLevel pDevice) then s.release pDevice
        else if FAILED (p.SetDataFormat pDevice) then s.release pDevice
        else
          let queried := p.GetCapabilities pDevice
          if FAILED queried.1 then s.release pDevice
          else
            let caps := queried.2
            { s with
              ctx := { s.ctx with
                devices_ := mapAssign s.ctx.devices_ device_guid
                  (buildDevice device_guid product_name pDevice caps (p.EnumObjects pDevice)) } }

/-- The method `UpdateDetection`; `none` stands for the call through a null
`pDI_`. -/
def UpdateDetection (p : Platform) (s : Runtime) : Option Runtime :=
  match s.ctx.pDI_ with
  | none => none
  | some _ =>
    let device_guids := p.EnumDevices
    let kept := erase_if s.ctx.devices_ (fun kvp => !device_guids.contains kvp.1)
    some (device_guids.foldl (discoverDevice p) { s with ctx := { s.ctx with devices_ := kept } })

/-- The function `ReleaseDirectInput8` under the default configuration
`CONFIG_USE_DIRECTINPUT8CREATE = 1`, on the record of subsystem releases. -/
def ReleaseDirectInput8 (contextReleases : List IDirectInput8) (pDI : Option IDirectInput8) :
    List IDirectInput8 :=
  match pDI with
  | some di => contextReleases ++ [di]
  | none => contextReleases

/-- The method `Shutdown`. -/
def Shutdown (s : Runtime) : Runtime :=
  { ctx := { pDI_ := none, devices_ := [] }
    deviceReleases :=
      s.ctx.devices_.foldl (fun released kvp => released ++ [kvp.2.pDevice]) s.deviceReleases
    contextReleases := ReleaseDirectInput8 s.contextReleases s.ctx.pDI_ }

/-- The device-side calls of `UpdateState`, as steps on a platform state `σ`:
each call answers a result code and may change the platform state. -/
structure DeviceDriver (σ : Type) where
  Poll : IDirectInputDevice8 → σ → HRESULT × σ
  Acquire : IDirectInputDevice8 → σ → HRESULT × σ
  GetDeviceState : IDirectInputDevice8 → σ → (HRESULT × DIJOYSTATE2) × σ

/-- The end of the loop body of `UpdateState`: `GetDeviceState` into a local
record, and the copy into `device.state` when the read did not fail. -/
def readDeviceState {σ : Type} (drv : DeviceDriver σ) (w : σ) (device : Device) : σ × Device :=
  let read := drv.GetDeviceState device.pDevice w
  if FAILED read.1.1 then (read.2, device)
  else (read.2, { device with state := read.1.2 })

/-- The loop body of `UpdateState` for one device. -/
def updateDeviceState {σ : Type} (drv : DeviceDriver σ) (w : σ) (device : Device) : σ × Device :=
  let polled := drv.Poll device.pDevice w
  if polled.1 = DIERR_INPUTLOST ∨ polled.1 = DIERR_NOTACQUIRED then
    let acquired := drv.Acquire device.pDevice polled.2
    let retried := drv.Poll device.pDevice acquired.2
    if FAILED retried.1 then (retried.2, device)
    else readDeviceState drv retried.2 device
  else readDeviceState drv polled.2 device

/-- The loop `for (auto& [guid, device] : devices_)` of `UpdateState`. -/
def updateStateLoop {σ : Type} (drv : DeviceDriver σ) :
    σ → List (GUID × Device) → σ × List (GUID × Device)
  | w, [] => (w, [])
  | w, kvp :: rest =>
    let stepped := updateDeviceState drv w kvp.2
    let looped := updateStateLoop drv stepped.1 rest
    (looped.1, (kvp.1, stepped.2) :: looped.2)

/-- The method `UpdateState`. -/
def UpdateState {σ : Type} (drv : DeviceDriver σ) (w : σ) (c : DirectInputContext) :
    σ × DirectInputContext :=
  let looped := updateStateLoop drv w c.devices_
  (looped.1, { c with devices_ := looped.2 })

/-! ## Auxiliary definitions -/

/-- A list of descriptors is ascending by raw offset: for all positions
`i < j`, `l[i].offset ≤ l[j].offset`. -/
def AscendingByOffset (l : List Input) : Prop :=
  ∀ i j : Fin l.length, i < j → (l.get i).offset ≤ (l.get j).offset

/-- The branch of the callback an object takes. -/
inductive Branch where
  | hat
  | button
  | axis (offset : Nat)
  | slider
  | ignored
  deriving DecidableEq, Repr

/-- The branch of `DIEnumDeviceObjectsCallback` taken by an object, decided by
the same tests in the same order. -/
def branchOf (o : DIDEVICEOBJECTINSTANCE) : Branch :=
  if o.dwType &&& DIDFT_POV ≠ 0 then Branch.hat
  else if o.dwType &&& DIDFT_BUTTON ≠ 0 then Branch.button
  else if o.dwType &&& DIDFT_AXIS ≠ 0 then
    match o.guidType with
    | GuidType.GUID_XAxis => Branch.axis DIJOFS_X
    | GuidType.GUID_YAxis => Branch.axis DIJOFS_Y
    | GuidType.GUID_ZAxis => Branch.axis DIJOFS_Z
    | GuidType.GUID_RxAxis => Branch.axis DIJOFS_RX
    | GuidType.GUID_RyAxis => Branch.axis DIJOFS_RY
    | GuidType.GUID_RzAxis => Branch.axis DIJOFS_RZ
    | GuidType.GUID_Slider => Branch.slider
    | _ => Branch.ignored
  else Branch.ignored

/-- The hat descriptor pushed when the hat list has `n` elements. -/
def povAt (n : Nat) : Input :=
  { type := InputType.kPOV, index := toDWORD n, offset := toDWORD (DIJOFS_POV (toDWORD n)) }

/-- The button descriptor pushed when the button list has `n` elements. -/
def buttonAt (n : Nat) : Input :=
  { type := InputType.kButton, index := toDWORD n, offset := toDWORD (DIJOFS_BUTTON (toDWORD n)) }

/-- The offset given to the slider seen after `n` earlier sliders. -/
def sliderOffsetAt (n : Nat) : Nat := toDWORD (DIJOFS_SLIDER (toDWORD n))

/-- The offset of an object that takes a non-slider axis branch. -/
def fixedAxisOffset (o : DIDEVICEOBJECTINSTANCE) : Option Nat :=
  match branchOf o with
  | Branch.axis offset => some offset
  | _ => none

/-- An object is a hat object: the callback takes the hat branch for it. -/
def isHat (o : DIDEVICEOBJECTINSTANCE) : Bool := decide (branchOf o = Branch.hat)

/-- An object is a button object: the callback takes the button branch for it. -/
def isButton (o : DIDEVICEOBJECTINSTANCE) : Bool := decide (branchOf o = Branch.button)

/-- An object is a slider object: an axis object whose type identifier is `GUID_Slider`. -/
def isSlider (o : DIDEVICEOBJECTINSTANCE) : Bool := decide (branchOf o = Branch.slider)

/-- An object is an axis object: it reaches the axis branch of the callback
(no hat flag, no button flag, an axis flag). -/
def isAxisObject (o : DIDEVICEOBJECTINSTANCE) : Bool :=
  decide (o.dwType &&& DIDFT_POV = 0) && decide (o.dwType &&& DIDFT_BUTTON = 0) &&
    decide (o.dwType &&& DIDFT_AXIS ≠ 0)

/-- An object is an axis object that is not a slider: it reaches the axis
branch of the callback with a type identifier other than `GUID_Slider`. -/
def isNonSliderAxis (o : DIDEVICEOBJECTINSTANCE) : Bool :=
  isAxisObject o && decide (o.guidType ≠ GuidType.GUID_Slider)

/-- The offset the callback stores for a type identifier that names one of
the six fixed axes. -/
def fixedOffsetOfGuid (g : GuidType) : Option Nat :=
  match g with
  | GuidType.GUID_XAxis => some DIJOFS_X
  | GuidType.GUID_YAxis => some DIJOFS_Y
  | GuidType.GUID_ZAxis => some DIJOFS_Z
  | GuidType.GUID_RxAxis => some DIJOFS_RX
  | GuidType.GUID_RyAxis => some DIJOFS_RY
  | GuidType.GUID_RzAxis => some DIJOFS_RZ
  | _ => none

/-- Sample enumeration of a device with 2 hats, the axes X, Y, Z, Rx, Ry, Rz, one
slider and 8 buttons, in a mixed order. -/
def sampleGamepad : List DIDEVICEOBJECTINSTANCE :=
  [{ guidType := GuidType.GUID_Button, dwType := 0x0304 },
   { guidType := GuidType.GUID_Slider, dwType := 0x0602 },
   { guidType := GuidType.GUID_RzAxis, dwType := 0x0502 },
   { guidType := GuidType.GUID_POV, dwType := 0x0110 },
   { guidType := GuidType.GUID_Button, dwType := 0x0004 },
   { guidType := GuidType.GUID_YAxis, dwType := 0x0102 },
   { guidType := GuidType.GUID_Button, dwType := 0x0704 },
   { guidType := GuidType.GUID_Button, dwType := 0x0104 },
   { guidType := GuidType.GUID_ZAxis, dwType := 0x0202 },
   { guidType := GuidType.GUID_Button, dwType := 0x0204 },
   { guidType := GuidType.GUID_RxAxis, dwType := 0x0302 },
   { guidType := GuidType.GUID_Button, dwType := 0x0604 },
   { guidType := GuidType.GUID_POV, dwType := 0x0010 },
   { guidType := GuidType.GUID_Button, dwType := 0x0404 },
   { guidType := GuidType.GUID_XAxis, dwType := 0x0002 },
   { guidType := GuidType.GUID_RyAxis, dwType := 0x0402 },
   { guidType := GuidType.GUID_Button, dwType := 0x0504 }]

/-- Sample enumeration: a hat, a button, a Y axis, an axis object with an
unrecognised type identifier, and an X axis. -/
def sampleMixed : List DIDEVICEOBJECTINSTANCE :=
  [{ guidType := GuidType.GUID_POV, dwType := 0x0010 },
   { guidType := GuidType.GUID_Button, dwType := 0x0004 },
   { guidType := GuidType.GUID_YAxis, dwType := 0x0002 },
   { guidType := GuidType.GUID_Unknown, dwType := 0x0102 },
   { guidType := GuidType.GUID_XAxis, dwType := 0x0202 }]

/-- Sample enumeration: a Y axis, a slider, an X axis and a second slider. -/
def sampleAxes : List DIDEVICEOBJECTINSTANCE :=
  [{ guidType := GuidType.GUID_YAxis, dwType := 0x0002 },
   { guidType := GuidType.GUID_Slider, dwType := 0x0102 },
   { guidType := GuidType.GUID_XAxis, dwType := 0x0202 },
   { guidType := GuidType.GUID_Slider, dwType := 0x0302 }]

/-- Sample hat object, instance 0. -/
def sampleHat0 : DIDEVICEOBJECTINSTANCE := { guidType := GuidType.GUID_POV, dwType := 0x0010 }

/-- Sample hat object, instance 1. -/
def sampleHat1 : DIDEVICEOBJECTINSTANCE := { guidType := GuidType.GUID_POV, dwType := 0x0110 }

/-- Sample push-button object with the given instance number. -/
def sampleButton (n : Nat) : DIDEVICEOBJECTINSTANCE :=
  { guidType := GuidType.GUID_Button, dwType := 0x0004 + 0x100 * n }

/-- Sample absolute-axis object with the given type identifier and instance number. -/
def sampleAxis (g : GuidType) (n : Nat) : DIDEVICEOBJECTINSTANCE :=
  { guidType := g, dwType := 0x0002 + 0x100 * n }

/-- An object is stored in the axes list: it is a slider or an axis object
with one of the six recognised type identifiers. -/
def isStoredAxis (o : DIDEVICEOBJECTINSTANCE) : Bool :=
  match branchOf o with
  | Branch.axis _ => true
  | Branch.slider => true
  | _ => false

/-- The offsets the callback gives to the axis objects of an enumeration, in
enumeration order, when `slider_count` starts at `sc`. -/
def axisOffsetsFrom : Nat → List DIDEVICEOBJECTINSTANCE → List Nat
  | _, [] => []
  | sc, o :: rest =>
    match branchOf o with
    | Branch.axis offset => offset :: axisOffsetsFrom sc rest
    | Branch.slider => toDWORD (DIJOFS_SLIDER sc) :: axisOffsetsFrom (toDWORD (sc + 1)) rest
    | _ => axisOffsetsFrom sc rest

/-- Opening the handle, querying the product name, setting the cooperative
level, setting the data format and querying the capabilities all succeed for
an identity: none of the five results tested by `UpdateDetection` is a failure. -/
def discoverySucceeds (p : Platform) (g : GUID) : Bool :=
  !FAILED (p.CreateDevice g).1 &&
    !FAILED (p.GetProductName (p.CreateDevice g).2).1 &&
    !FAILED (p.SetCooperativeLevel (p.CreateDevice g).2) &&
    !FAILED (p.SetDataFormat (p.CreateDevice g).2) &&
    !FAILED (p.GetCapabilities (p.CreateDevice g).2).1

/-- The handles held by the records of the registry, in iteration order. -/
def DirectInputContext.handles (c : DirectInputContext) : List IDirectInputDevice8 :=
  c.devices_.map (fun kvp => kvp.2.pDevice)

/-- Sample platform: the identities 10, 20 and 30 are attached, every call
succeeds except `CreateDevice` for identity 30, and the handle of identity `g`
is `g + 100`. -/
def samplePlatform : Platform :=
  { EnumDevices := [10, 20, 30]
    CreateDevice := fun g => (if g = 30 then -1 else 0, g + 100)
    GetProductName := fun _ => (0, "pad")
    SetCooperativeLevel := fun _ => 0
    SetDataFormat := fun _ => 0
    GetCapabilities := fun _ => (0, { dwAxes := 7, dwButtons := 8, dwPOVs := 2 })
    EnumObjects := fun _ => sampleGamepad }

/-- Sample platform on which only identity 10 is attached. -/
def unpluggedPlatform : Platform :=
  { samplePlatform with EnumDevices := [10] }

/-- Sample system: a live subsystem object and the registry `10 ↦ handle 110,
40 ↦ handle 140`, nothing released so far. -/
def sampleRuntime : Runtime :=
  { ctx :=
      { pDI_ := some 1
        devices_ := [(10, buildDevice 10 "pad" 110 {} sampleGamepad),
                     (40, buildDevice 40 "pad" 140 {} sampleGamepad)] } }

/-- Sample state record with `lX = 5`. -/
def sampleSnapshot : DIJOYSTATE2 := { lX := 5 }

/-- Sample driver whose platform state counts the `Acquire` calls: a poll
reports lost access until the device was acquired, and the state read
delivers `sampleSnapshot`. -/
def recoveringDriver : DeviceDriver Nat :=
  { Poll := fun _ w => (if w = 0 then DIERR_INPUTLOST else 0, w)
    Acquire := fun _ w => (0, w + 1)
    GetDeviceState := fun _ w => ((0, sampleSnapshot), w) }

/-- The decoding of a button byte in `UpdateFrame` of `main.cpp`:
`(device->GetButtonValue(i) & 0x80) != 0`. -/
def buttonPressed (raw : Nat) : Bool := decide (raw &&& 0x80 ≠ 0)

/-- The hat rows of `UpdateFrame`: `GetPovValue(i)` for every `i` below
`caps.dwPOVs`. -/
def povRows (device : Device) : List (Option Nat) :=
  (List.range device.caps.dwPOVs).map device.GetPovValue

/-- The axis rows of `UpdateFrame`: `GetAxisValue(i)` for every `i` below
`caps.dwAxes`. -/
def axisRows (device : Device) : List (Option Int) :=
  (List.range device.caps.dwAxes).map device.GetAxisValue

/-- The button rows of `UpdateFrame`: `GetButtonValue(i)` for every `i` below
`caps.dwButtons`. -/
def buttonRows (device : Device) : List (Option Nat) :=
  (List.range device.caps.dwButtons).map device.GetButtonValue

/-- The eight display labels of `GetAxisName` other than "Unknown". -/
def axisLabels : List String := ["X", "Y", "Z", "Rx", "Ry", "Rz", "Slider 0", "Slider 1"]

/-- The offsets for which `GetAxisName` has a label. -/
def labelledOffsets : List Nat :=
  [DIJOFS_X, DIJOFS_Y, DIJOFS_Z, DIJOFS_RX, DIJOFS_RY, DIJOFS_RZ, DIJOFS_SLIDER 0, DIJOFS_SLIDER 1]

/-- Sample enumeration: three slider objects. -/
def sampleThreeSliders : List DIDEVICEOBJECTINSTANCE :=
  [{ guidType := GuidType.GUID_Slider, dwType := 0x0002 },
   { guidType := GuidType.GUID_Slider, dwType := 0x0102 },
   { guidType := GuidType.GUID_Slider, dwType := 0x0202 }]

/-- Sample enumeration: five hat objects. -/
def sampleFiveHats : List DIDEVICEOBJECTINSTANCE :=
  [{ guidType := GuidType.GUID_POV, dwType := 0x0010 },
   { guidType := GuidType.GUID_POV, dwType := 0x0110 },
   { guidType := GuidType.GUID_POV, dwType := 0x0210 },
   { guidType := GuidType.GUID_POV, dwType := 0x0310 },
   { guidType := GuidType.GUID_POV, dwType := 0x0410 }]

/-- Sample enumeration: 129 push-button objects. -/
def sampleManyButtons : List DIDEVICEOBJECTINSTANCE :=
  (List.range 129).map sampleButton

/-- Sample enumeration: an X axis and an axis object with an unrecognised type
identifier. -/
def sampleDial : List DIDEVICEOBJECTINSTANCE :=
  [{ guidType := GuidType.GUID_XAxis, dwType := 0x0002 },
   { guidType := GuidType.GUID_Unknown, dwType := 0x0102 }]

/-- Modelled from the spec: the generic platform failure code `E_FAIL`
(`0x80004005` as a signed 32-bit value), whose declaration is not among the
sources. -/
def E_FAIL : HRESULT := 0x80004005 - 2 ^ 32

/-- Sample driver whose polls fail with `E_FAIL` while the state read succeeds
and delivers `sampleSnapshot`. -/
def failingPollDriver : DeviceDriver Nat :=
  { Poll := fun _ w => (E_FAIL, w)
    Acquire := fun _ w => (0, w + 1)
    GetDeviceState := fun _ w => ((0, sampleSnapshot), w) }

/-- Sample driver whose platform state counts the state reads: every poll
reports lost access, also after `Acquire`, and every `GetDeviceState` call
succeeds and adds one to the platform state. -/
def lostAccessDriver : DeviceDriver Nat :=
  { Poll := fun _ w => (DIERR_INPUTLOST, w)
    Acquire := fun _ w => (0, w)
    GetDeviceState := fun _ w => ((0, sampleSnapshot), w + 1) }

/-- Sample platform that agrees with `samplePlatform` except that it cannot
open identity 10. -/
def samplePlatformClosed10 : Platform :=
  { samplePlatform with
    CreateDevice := fun g => (if g = 30 ∨ g = 10 then -1 else 0, g + 100) }

/-- Two platforms give the same answers for every attached identity that is
not a key of the registry: the same list of attached identities, and for each
such identity the same answer of `CreateDevice` and the same answers of the
calls made on the handle it returns. They may differ in every other answer. -/
def AgreeOffRegistry (p q : Platform) (keys : List GUID) : Prop :=
  q.EnumDevices = p.EnumDevices ∧
  ∀ g ∈ p.EnumDevices, g ∉ keys →
    q.CreateDevice g = p.CreateDevice g ∧
    q.GetProductName (p.CreateDevice g).2 = p.GetProductName (p.CreateDevice g).2 ∧
    q.SetCooperativeLevel (p.CreateDevice g).2 = p.SetCooperativeLevel (p.CreateDevice g).2 ∧
    q.SetDataFormat (p.CreateDevice g).2 = p.SetDataFormat (p.CreateDevice g).2 ∧
    q.GetCapabilities (p.CreateDevice g).2 = p.GetCapabilities (p.CreateDevice g).2 ∧
    q.EnumObjects (p.CreateDevice g).2 = p.EnumObjects (p.CreateDevice g).2

/-! ## The callback, branch by branch -/

theorem callback_hat (info : InputInfo) (o : DIDEVICEOBJECTINSTANCE) (h : branchOf o = Branch.hat) :
    DIEnumDeviceObjectsCallback info o = { info with povs := info.povs ++ [povAt info.povs.length] } := by
  rcases o with ⟨g, t⟩
  by_cases h1 : t &&& DIDFT_POV ≠ 0 <;> by_cases h2 : t &&& DIDFT_BUTTON ≠ 0 <;>
    by_cases h3 : t &&& DIDFT_AXIS ≠ 0 <;> cases g <;>
    simp_all [branchOf, DIEnumDeviceObjectsCallback, pushAxis, povAt]

theorem callback_button (info : InputInfo) (o : DIDEVICEOBJECTINSTANCE)
    (h : branchOf o = Branch.button) :
    DIEnumDeviceObjectsCallback info o =
      { info with buttons := info.buttons ++ [buttonAt info.buttons.length] } := by
  rcases o with ⟨g, t⟩
  by_cases h1 : t &&& DIDFT_POV ≠ 0 <;> by_cases h2 : t &&& DIDFT_BUTTON ≠ 0 <;>
    by_cases h3 : t &&& DIDFT_AXIS ≠ 0 <;> cases g <;>
    simp_all [branchOf, DIEnumDeviceObjectsCallback, pushAxis, buttonAt]

theorem callback_axis (info : InputInfo) (o : DIDEVICEOBJECTINSTANCE) (offset : Nat)
    (h : branchOf o = Branch.axis offset) :
    DIEnumDeviceObjectsCallback info o =
      pushAxis info (toDWORD info.axes.length) offset := by
  rcases o with ⟨g, t⟩
  by_cases h1 : t &&& DIDFT_POV ≠ 0 <;> by_cases h2 : t &&& DIDFT_BUTTON ≠ 0 <;>
    by_cases h3 : t &&& DIDFT_AXIS ≠ 0 <;> cases g <;>
    simp_all [branchOf, DIEnumDeviceObjectsCallback, pushAxis]

theorem callback_slider (info : InputInfo) (o : DIDEVICEOBJECTINSTANCE)
    (h : branchOf o = Branch.slider) :
    DIEnumDeviceObjectsCallback info o =
      pushAxis { info with slider_count := toDWORD (info.slider_count + 1) }
        (toDWORD info.axes.length) (toDWORD (DIJOFS_SLIDER info.slider_count)) := by
  rcases o with ⟨g, t⟩
  by_cases h1 : t &&& DIDFT_POV ≠ 0 <;> by_cases h2 : t &&& DIDFT_BUTTON ≠ 0 <;>
    by_cases h3 : t &&& DIDFT_AXIS ≠ 0 <;> cases g <;>
    simp_all [branchOf, DIEnumDeviceObjectsCallback, pushAxis]

theorem callback_ignored (info : InputInfo) (o : DIDEVICEOBJECTINSTANCE)
    (h : branchOf o = Branch.ignored) :
    DIEnumDeviceObjectsCallback info o = info := by
  rcases o with ⟨g, t⟩
  by_cases h1 : t &&& DIDFT_POV ≠ 0 <;> by_cases h2 : t &&& DIDFT_BUTTON ≠ 0 <;>
    by_cases h3 : t &&& DIDFT_AXIS ≠ 0 <;> cases g <;>
    simp_all [branchOf, DIEnumDeviceObjectsCallback, pushAxis]

/-! ## The collected lists in closed form -/

theorem map_range_shift {α : Type} (f : Nat → α) (n k : Nat) :
    (List.range (k + 1)).map (fun i => f (n + i)) =
      f n :: (List.range k).map (fun i => f (n + 1 + i)) := by
  rw [List.range_succ_eq_map, List.map_cons, List.map_map]
  simp only [Nat.add_zero, List.cons.injEq, true_and]
  apply List.map_congr_left
  intro i _
  simp only [Function.comp, Nat.succ_eq_add_one]
  congr 1
  omega

theorem foldl_povs (objs : List DIDEVICEOBJECTINSTANCE) (info : InputInfo) :
    (objs.foldl DIEnumDeviceObjectsCallback info).povs =
      info.povs ++ (List.range (objs.countP isHat)).map (fun i => povAt (info.povs.length + i)) := by
  induction objs generalizing info with
  | nil => simp
  | cons o rest ih =>
    rw [List.foldl_cons, ih]
    cases h : branchOf o with
    | hat =>
      rw [callback_hat _ _ h]
      have hc : (o :: rest).countP isHat = rest.countP isHat + 1 := by
        simp [List.countP_cons, isHat, h]
      rw [hc, map_range_shift]
      simp
    | button => rw [callback_button _ _ h]; simp [List.countP_cons, isHat, h]
    | axis off => rw [callback_axis _ _ _ h]; simp [List.countP_cons, isHat, h, pushAxis]
    | slider => rw [callback_slider _ _ h]; simp [List.countP_cons, isHat, h, pushAxis]
    | ignored => rw [callback_ignored _ _ h]; simp [List.countP_cons, isHat, h]

theorem foldl_buttons (objs : List DIDEVICEOBJECTINSTANCE) (info : InputInfo) :
    (objs.foldl DIEnumDeviceObjectsCallback info).buttons =
      info.buttons ++
        (List.range (objs.countP isButton)).map (fun i => buttonAt (info.buttons.length + i)) := by
  induction objs generalizing info with
  | nil => simp
  | cons o rest ih =>
    rw [List.foldl_cons, ih]
    cases h : branchOf o with
    | hat => rw [callback_hat _ _ h]; simp [List.countP_cons, isButton, h]
    | button =>
      rw [callback_button _ _ h]
      have hc : (o :: rest).countP isButton = rest.countP isButton + 1 := by
        simp [List.countP_cons, isButton, h]
      rw [hc, map_range_shift]
      simp
    | axis off => rw [callback_axis _ _ _ h]; simp [List.countP_cons, isButton, h, pushAxis]
    | slider => rw [callback_slider _ _ h]; simp [List.countP_cons, isButton, h, pushAxis]
    | ignored => rw [callback_ignored _ _ h]; simp [List.countP_cons, isButton, h]

theorem foldl_axes_index (objs : List DIDEVICEOBJECTINSTANCE) (info : InputInfo) :
    (objs.foldl DIEnumDeviceObjectsCallback info).axes.map Input.index =
      info.axes.map Input.index ++
        (List.range (objs.countP isStoredAxis)).map (fun i => toDWORD (info.axes.length + i)) := by
  induction objs generalizing info with
  | nil => simp
  | cons o rest ih =>
    rw [List.foldl_cons, ih]
    cases h : branchOf o with
    | hat => rw [callback_hat _ _ h]; simp [List.countP_cons, isStoredAxis, h]
    | button => rw [callback_button _ _ h]; simp [List.countP_cons, isStoredAxis, h]
    | axis off =>
      rw [callback_axis _ _ _ h]
      have hc : (o :: rest).countP isStoredAxis = rest.countP isStoredAxis + 1 := by
        simp [List.countP_cons, isStoredAxis, h]
      rw [hc, map_range_shift]
      simp [pushAxis]
    | slider =>
      rw [callback_slider _ _ h]
      have hc : (o :: rest).countP isStoredAxis = rest.countP isStoredAxis + 1 := by
        simp [List.countP_cons, isStoredAxis, h]
      rw [hc, map_range_shift]
      simp [pushAxis]
    | ignored => rw [callback_ignored _ _ h]; simp [List.countP_cons, isStoredAxis, h]

theorem foldl_axes_offset (objs : List DIDEVICEOBJECTINSTANCE) (info : InputInfo) :
    (objs.foldl DIEnumDeviceObjectsCallback info).axes.map Input.offset =
      info.axes.map Input.offset ++ axisOffsetsFrom info.slider_count objs := by
  induction objs generalizing info with
  | nil => simp [axisOffsetsFrom]
  | cons o rest ih =>
    rw [List.foldl_cons, ih]
    cases h : branchOf o with
    | hat => rw [callback_hat _ _ h]; simp [axisOffsetsFrom, h]
    | button => rw [callback_button _ _ h]; simp [axisOffsetsFrom, h]
    | axis off => rw [callback_axis _ _ _ h]; simp [axisOffsetsFrom, h, pushAxis]
    | slider => rw [callback_slider _ _ h]; simp [axisOffsetsFrom, h, pushAxis]
    | ignored => rw [callback_ignored _ _ h]; simp [axisOffsetsFrom, h]

theorem enum_povs (objs : List DIDEVICEOBJECTINSTANCE) :
    (EnumObjects objs).povs = (List.range (objs.countP isHat)).map povAt := by
  unfold EnumObjects
  rw [foldl_povs]
  simp

theorem enum_buttons (objs : List DIDEVICEOBJECTINSTANCE) :
    (EnumObjects objs).buttons = (List.range (objs.countP isButton)).map buttonAt := by
  unfold EnumObjects
  rw [foldl_buttons]
  simp

theorem enum_axes_index (objs : List DIDEVICEOBJECTINSTANCE) :
    (EnumObjects objs).axes.map Input.index =
      (List.range (objs.countP isStoredAxis)).map toDWORD := by
  unfold EnumObjects
  rw [foldl_axes_index]
  simp

theorem enum_axes_offset (objs : List DIDEVICEOBJECTINSTANCE) :
    (EnumObjects objs).axes.map Input.offset = axisOffsetsFrom 0 objs := by
  unfold EnumObjects
  rw [foldl_axes_offset]
  simp

/-! ## Sorting by offset -/

theorem offsetLe_iff (a b : Input) : offsetLe a b ↔ a.offset ≤ b.offset := by
  simp [offsetLe, offsetLess]

theorem sortByOffset_perm (l : List Input) : (sortByOffset l).Perm l :=
  List.perm_insertionSort offsetLe l

theorem sortByOffset_sorted (l : List Input) : (sortByOffset l).Sorted offsetLe :=
  List.sorted_insertionSort offsetLe l

theorem sortByOffset_length (l : List Input) : (sortByOffset l).length = l.length :=
  (sortByOffset_perm l).length_eq

theorem sortByOffset_ascending (l : List Input) : AscendingByOffset (sortByOffset l) := by
  intro i j hij
  exact (offsetLe_iff _ _).1 ((sortByOffset_sorted l).rel_get_of_lt hij)

theorem sortByOffset_offsets_sorted (l : List Input) :
    ((sortByOffset l).map Input.offset).Sorted (· ≤ ·) := by
  unfold List.Sorted
  rw [List.pairwise_map]
  exact (sortByOffset_sorted l).imp (fun {a b} h => (offsetLe_iff a b).1 h)

/-- Every sort of the same multiset of offsets yields the same offsets, position by position. -/
theorem sortByOffset_offsets_congr (l₁ l₂ : List Input)
    (h : (l₁.map Input.offset).Perm (l₂.map Input.offset)) :
    (sortByOffset l₁).map Input.offset = (sortByOffset l₂).map Input.offset := by
  apply List.eq_of_perm_of_sorted (r := (· ≤ ·)) _ (sortByOffset_offsets_sorted l₁)
    (sortByOffset_offsets_sorted l₂)
  exact (((sortByOffset_perm l₁).map _).trans h).trans ((sortByOffset_perm l₂).map _).symm

/-- Whatever order `std::sort` leaves equal offsets in, the offsets of its
result are those of `sortByOffset`. -/
theorem sorted_perm_offsets_unique (l r : List Input) (hp : r.Perm l)
    (hs : r.Sorted offsetLe) : r.map Input.offset = (sortByOffset l).map Input.offset := by
  have hr : (r.map Input.offset).Sorted (· ≤ ·) := by
    unfold List.Sorted
    rw [List.pairwise_map]
    exact hs.imp (fun {a b} h => (offsetLe_iff a b).1 h)
  apply List.eq_of_perm_of_sorted (r := (· ≤ ·)) _ hr (sortByOffset_offsets_sorted l)
  exact (hp.map _).trans ((sortByOffset_perm l).map _).symm

theorem toDWORD_of_lt {n : Nat} (h : n < 2 ^ 32) : toDWORD n = n := Nat.mod_eq_of_lt h

theorem toDWORD_succ (n : Nat) : toDWORD (toDWORD n + 1) = toDWORD (n + 1) := by
  unfold toDWORD
  omega

theorem map_toDWORD_range (n : Nat) (h : n ≤ 2 ^ 32) :
    (List.range n).map toDWORD = List.range n := by
  conv_rhs => rw [← List.map_id (List.range n)]
  apply List.map_congr_left
  intro i hi
  rw [List.mem_range] at hi
  exact toDWORD_of_lt (by omega)

theorem axisOffsetsFrom_perm (objs : List DIDEVICEOBJECTINSTANCE) (n : Nat) :
    (axisOffsetsFrom (toDWORD n) objs).Perm
      (objs.filterMap fixedAxisOffset ++
        (List.range (objs.countP isSlider)).map (fun i => sliderOffsetAt (n + i))) := by
  induction objs generalizing n with
  | nil => simp [axisOffsetsFrom]
  | cons o rest ih =>
    cases h : branchOf o with
    | hat => simpa [axisOffsetsFrom, h, fixedAxisOffset, isSlider, List.countP_cons] using ih n
    | button => simpa [axisOffsetsFrom, h, fixedAxisOffset, isSlider, List.countP_cons] using ih n
    | axis off =>
      simpa [axisOffsetsFrom, h, fixedAxisOffset, isSlider, List.countP_cons] using ih n
    | slider =>
      have hc : (o :: rest).countP isSlider = rest.countP isSlider + 1 := by
        simp [List.countP_cons, isSlider, h]
      have hf : (o :: rest).filterMap fixedAxisOffset = rest.filterMap fixedAxisOffset := by
        simp [List.filterMap_cons, fixedAxisOffset, h]
      rw [hc, hf, map_range_shift]
      simp only [axisOffsetsFrom, h, toDWORD_succ]
      refine List.Perm.trans ?_ List.perm_middle.symm
      exact List.Perm.cons _ (ih (n + 1))
    | ignored =>
      simpa [axisOffsetsFrom, h, fixedAxisOffset, isSlider, List.countP_cons] using ih n

/-- The multiset of axis offsets collected by the callback does not depend on
the enumeration order. -/
theorem enum_axes_offset_perm (e₁ e₂ : List DIDEVICEOBJECTINSTANCE) (h : e₁.Perm e₂) :
    ((EnumObjects e₁).axes.map Input.offset).Perm ((EnumObjects e₂).axes.map Input.offset) := by
  rw [enum_axes_offset, enum_axes_offset]
  have h0 : (0 : Nat) = toDWORD 0 := rfl
  rw [h0]
  refine (axisOffsetsFrom_perm e₁ 0).trans (List.Perm.trans ?_ (axisOffsetsFrom_perm e₂ 0).symm)
  rw [h.countP_eq]
  exact List.Perm.append_right _ (h.filterMap _)

/-! ## Claims about the descriptor lists -/

/-- C1: for every enumeration of control objects, the hats, axes and buttons
lists of the device record built by `UpdateDetection` are each ascending by raw
offset and each a permutation of the descriptors the callback collected. -/
theorem C1_lists_sorted_permutation (device_guid : GUID) (product_name : String)
    (pDevice : IDirectInputDevice8) (caps : DIDEVCAPS) (objects : List DIDEVICEOBJECTINSTANCE) :
    (AscendingByOffset (buildDevice device_guid product_name pDevice caps objects).povs ∧
      (buildDevice device_guid product_name pDevice caps objects).povs.Perm
        (EnumObjects objects).povs) ∧
    (AscendingByOffset (buildDevice device_guid product_name pDevice caps objects).axes ∧
      (buildDevice device_guid product_name pDevice caps objects).axes.Perm
        (EnumObjects objects).axes) ∧
    (AscendingByOffset (buildDevice device_guid product_name pDevice caps objects).buttons ∧
      (buildDevice device_guid product_name pDevice caps objects).buttons.Perm
        (EnumObjects objects).buttons) := by
  simp only [buildDevice, enumerateAndSort]
  exact ⟨⟨sortByOffset_ascending _, sortByOffset_perm _⟩,
    ⟨sortByOffset_ascending _, sortByOffset_perm _⟩,
    ⟨sortByOffset_ascending _, sortByOffset_perm _⟩⟩

/-- C2 (evaluation of the code): for a device whose Y axis is enumerated
before its X axis, the sorted axes list holds the X descriptor with stored
index 1 at position 0 and the Y descriptor with stored index 0 at position 1. -/
theorem C2_axes_index_not_position :
    (buildDevice 1 "pad" 1 {}
      [sampleAxis GuidType.GUID_YAxis 0, sampleAxis GuidType.GUID_XAxis 1]).axes =
      [{ type := InputType.kAxis, index := 1, offset := 0 },
       { type := InputType.kAxis, index := 0, offset := 4 }] := by
  decide

theorem countP_le_two_pow (objects : List DIDEVICEOBJECTINSTANCE) (p : DIDEVICEOBJECTINSTANCE → Bool)
    (h : objects.length ≤ 2 ^ 32) : objects.countP p ≤ 2 ^ 32 :=
  Nat.le_trans (List.countP_le_length p) h

theorem povs_index_range (objects : List DIDEVICEOBJECTINSTANCE) (h : objects.length ≤ 2 ^ 32) :
    (EnumObjects objects).povs.map Input.index = List.range (EnumObjects objects).povs.length := by
  rw [enum_povs, List.map_map, List.length_map, List.length_range]
  exact map_toDWORD_range _ (countP_le_two_pow objects isHat h)

theorem buttons_index_range (objects : List DIDEVICEOBJECTINSTANCE)
    (h : objects.length ≤ 2 ^ 32) :
    (EnumObjects objects).buttons.map Input.index =
      List.range (EnumObjects objects).buttons.length := by
  rw [enum_buttons, List.map_map, List.length_map, List.length_range]
  exact map_toDWORD_range _ (countP_le_two_pow objects isButton h)

theorem axes_index_range (objects : List DIDEVICEOBJECTINSTANCE) (h : objects.length ≤ 2 ^ 32) :
    (EnumObjects objects).axes.map Input.index = List.range (EnumObjects objects).axes.length := by
  have hl : (EnumObjects objects).axes.length = objects.countP isStoredAxis := by
    rw [← List.length_map (EnumObjects objects).axes Input.index, enum_axes_index]
    simp
  rw [hl, enum_axes_index]
  exact map_toDWORD_range _ (countP_le_two_pow objects isStoredAxis h)

theorem sorted_index_perm_range (l : List Input)
    (h : l.map Input.index = List.range l.length) :
    ((sortByOffset l).map Input.index).Perm (List.range (sortByOffset l).length) := by
  rw [sortByOffset_length, ← h]
  exact (sortByOffset_perm l).map _

theorem povAt_sorted (n : Nat) (h : n ≤ 2 ^ 30 - 8) :
    ((List.range n).map povAt).Sorted offsetLe := by
  unfold List.Sorted
  rw [List.pairwise_map]
  refine (List.pairwise_lt_range n).imp_of_mem ?_
  intro a b ha hb hab
  rw [List.mem_range] at ha hb
  rw [offsetLe_iff]
  simp only [povAt, toDWORD, DIJOFS_POV]
  omega

theorem buttonAt_sorted (n : Nat) (h : n ≤ 2 ^ 30 - 8) :
    ((List.range n).map buttonAt).Sorted offsetLe := by
  unfold List.Sorted
  rw [List.pairwise_map]
  refine (List.pairwise_lt_range n).imp_of_mem ?_
  intro a b ha hb hab
  rw [List.mem_range] at ha hb
  rw [offsetLe_iff]
  simp only [buttonAt, toDWORD, DIJOFS_BUTTON]
  omega

/-- The hat and button branches of the callback derive the offset from the
index, so for these two lists the sort changes nothing and the stored index is
the position in the sorted list. -/
theorem hats_buttons_index_is_position (device_guid : GUID) (product_name : String)
    (pDevice : IDirectInputDevice8) (caps : DIDEVCAPS) (objects : List DIDEVICEOBJECTINSTANCE)
    (h : objects.length ≤ 2 ^ 30 - 8) :
    (buildDevice device_guid product_name pDevice caps objects).povs.map Input.index =
      List.range (buildDevice device_guid product_name pDevice caps objects).povs.length ∧
    (buildDevice device_guid product_name pDevice caps objects).buttons.map Input.index =
      List.range (buildDevice device_guid product_name pDevice caps objects).buttons.length := by
  have h32 : objects.length ≤ 2 ^ 32 := by omega
  have hp : sortByOffset (EnumObjects objects).povs = (EnumObjects objects).povs := by
    rw [enum_povs]
    exact List.Sorted.insertionSort_eq
      (povAt_sorted _ (Nat.le_trans (List.countP_le_length isHat) h))
  have hb : sortByOffset (EnumObjects objects).buttons = (EnumObjects objects).buttons := by
    rw [enum_buttons]
    exact List.Sorted.insertionSort_eq
      (buttonAt_sorted _ (Nat.le_trans (List.countP_le_length isButton) h))
  simp only [buildDevice, enumerateAndSort, hp, hb]
  exact ⟨povs_index_range objects h32, buttons_index_range objects h32⟩

/-- C3: in every device record built by `UpdateDetection` the stored index
values of each of the hats, axes and buttons lists are exactly the numbers
`0 .. n-1` (`n` the list length), each once, whatever objects are ignored; the
number of enumerated objects is within the range of the `DWORD` that holds an
index. -/
theorem C3_indices_dense (device_guid : GUID) (product_name : String)
    (pDevice : IDirectInputDevice8) (caps : DIDEVCAPS) (objects : List DIDEVICEOBJECTINSTANCE)
    (h : objects.length ≤ 2 ^ 32) :
    ((buildDevice device_guid product_name pDevice caps objects).povs.map Input.index).Perm
      (List.range (buildDevice device_guid product_name pDevice caps objects).povs.length) ∧
    ((buildDevice device_guid product_name pDevice caps objects).axes.map Input.index).Perm
      (List.range (buildDevice device_guid product_name pDevice caps objects).axes.length) ∧
    ((buildDevice device_guid product_name pDevice caps objects).buttons.map Input.index).Perm
      (List.range (buildDevice device_guid product_name pDevice caps objects).buttons.length) := by
  simp only [buildDevice, enumerateAndSort]
  exact ⟨sorted_index_perm_range _ (povs_index_range objects h),
    sorted_index_perm_range _ (axes_index_range objects h),
    sorted_index_perm_range _ (buttons_index_range objects h)⟩

/-- Witness of C3: the enumeration `sampleMixed`, which holds an axis object
with an unrecognised type identifier. -/
theorem C3_indices_dense_witness :
    sampleMixed.length ≤ 2 ^ 32 ∧
    ((buildDevice 1 "pad" 1 {} sampleMixed).povs.map Input.index).Perm
      (List.range (buildDevice 1 "pad" 1 {} sampleMixed).povs.length) ∧
    ((buildDevice 1 "pad" 1 {} sampleMixed).axes.map Input.index).Perm
      (List.range (buildDevice 1 "pad" 1 {} sampleMixed).axes.length) ∧
    ((buildDevice 1 "pad" 1 {} sampleMixed).buttons.map Input.index).Perm
      (List.range (buildDevice 1 "pad" 1 {} sampleMixed).buttons.length) :=
  ⟨by decide, C3_indices_dense 1 "pad" 1 {} sampleMixed (by decide)⟩

/-- C4: two enumerations of a device's control objects that are permutations
of each other give device records whose hats, axes and buttons lists have the
same lengths and the same raw offset at every position. -/
theorem C4_offsets_independent_of_order (device_guid : GUID) (product_name : String)
    (pDevice : IDirectInputDevice8) (caps : DIDEVCAPS) (e₁ e₂ : List DIDEVICEOBJECTINSTANCE)
    (h : e₁.Perm e₂) :
    ((buildDevice device_guid product_name pDevice caps e₁).povs.length =
        (buildDevice device_guid product_name pDevice caps e₂).povs.length ∧
      (buildDevice device_guid product_name pDevice caps e₁).povs.map Input.offset =
        (buildDevice device_guid product_name pDevice caps e₂).povs.map Input.offset) ∧
    ((buildDevice device_guid product_name pDevice caps e₁).axes.length =
        (buildDevice device_guid product_name pDevice caps e₂).axes.length ∧
      (buildDevice device_guid product_name pDevice caps e₁).axes.map Input.offset =
        (buildDevice device_guid product_name pDevice caps e₂).axes.map Input.offset) ∧
    ((buildDevice device_guid product_name pDevice caps e₁).buttons.length =
        (buildDevice device_guid product_name pDevice caps e₂).buttons.length ∧
      (buildDevice device_guid product_name pDevice caps e₁).buttons.map Input.offset =
        (buildDevice device_guid product_name pDevice caps e₂).buttons.map Input.offset) := by
  simp only [buildDevice, enumerateAndSort]
  have hp : (EnumObjects e₁).povs = (EnumObjects e₂).povs := by
    rw [enum_povs, enum_povs, h.countP_eq]
  have hb : (EnumObjects e₁).buttons = (EnumObjects e₂).buttons := by
    rw [enum_buttons, enum_buttons, h.countP_eq]
  have ha := sortByOffset_offsets_congr _ _ (enum_axes_offset_perm e₁ e₂ h)
  refine ⟨⟨by rw [hp], by rw [hp]⟩, ⟨?_, ha⟩, ⟨by rw [hb], by rw [hb]⟩⟩
  have := congrArg List.length ha
  simpa using this

/-- Witness of C4: the enumeration `sampleAxes` and its reverse. -/
theorem C4_offsets_independent_of_order_witness :
    sampleAxes.Perm sampleAxes.reverse ∧
    (buildDevice 1 "pad" 1 {} sampleAxes).axes.map Input.offset =
      (buildDevice 1 "pad" 1 {} sampleAxes.reverse).axes.map Input.offset :=
  ⟨(List.reverse_perm sampleAxes).symm,
    (C4_offsets_independent_of_order 1 "pad" 1 {} sampleAxes sampleAxes.reverse
      (List.reverse_perm sampleAxes).symm).2.1.2⟩

theorem pushedBy_nonSliderAxis (info : InputInfo) (o : DIDEVICEOBJECTINSTANCE)
    (ho : isNonSliderAxis o = true) :
    (pushedBy info o).map Input.offset = fixedOffsetOfGuid o.guidType := by
  rcases o with ⟨g, t⟩
  by_cases h1 : t &&& DIDFT_POV ≠ 0 <;> by_cases h2 : t &&& DIDFT_BUTTON ≠ 0 <;>
    by_cases h3 : t &&& DIDFT_AXIS ≠ 0 <;> cases g <;>
    simp_all [pushedBy, DIEnumDeviceObjectsCallback, pushAxis, isNonSliderAxis, isAxisObject,
      fixedOffsetOfGuid]

theorem assignmentFrom_fst (objs : List DIDEVICEOBJECTINSTANCE) (info : InputInfo) :
    (assignmentFrom info objs).map Prod.fst = objs := by
  induction objs generalizing info with
  | nil => rfl
  | cons o rest ih => simp [assignmentFrom, ih]

theorem assignmentFrom_nonSliderAxis (objs : List DIDEVICEOBJECTINSTANCE) (info : InputInfo)
    (o : DIDEVICEOBJECTINSTANCE) (x : Option Input) (ho : isNonSliderAxis o = true)
    (hx : (o, x) ∈ assignmentFrom info objs) :
    x.map Input.offset = fixedOffsetOfGuid o.guidType := by
  induction objs generalizing info with
  | nil => simp [assignmentFrom] at hx
  | cons o₁ rest ih =>
    simp only [assignmentFrom, List.mem_cons, Prod.mk.injEq] at hx
    rcases hx with ⟨rfl, rfl⟩ | hx
    · exact pushedBy_nonSliderAxis info o ho
    · exact ih _ hx

theorem mem_assignment_of_mem (objs : List DIDEVICEOBJECTINSTANCE) (o : DIDEVICEOBJECTINSTANCE)
    (h : o ∈ objs) : ∃ x, (o, x) ∈ assignment objs := by
  have hm : o ∈ (assignment objs).map Prod.fst := by
    unfold assignment
    rw [assignmentFrom_fst]
    exact h
  rcases List.mem_map.1 hm with ⟨⟨o₁, x⟩, hmem, rfl⟩
  exact ⟨x, hmem⟩

/-- C5 (counterexample): the hat object `sampleHat0` is given raw offset 32
when it is enumerated before `sampleHat1` and raw offset 36 when it is
enumerated after it; the button object `sampleButton 0` is given raw offset 48
before `sampleButton 1` and 49 after it. -/
theorem C5_hat_offset_depends_on_order :
    List.Perm [sampleHat0, sampleHat1] [sampleHat1, sampleHat0] ∧
    isHat sampleHat0 = true ∧
    (sampleHat0, some { type := InputType.kPOV, index := 0, offset := 32 }) ∈
      assignment [sampleHat0, sampleHat1] ∧
    (sampleHat0, some { type := InputType.kPOV, index := 1, offset := 36 }) ∈
      assignment [sampleHat1, sampleHat0] ∧
    List.Perm [sampleButton 0, sampleButton 1] [sampleButton 1, sampleButton 0] ∧
    isButton (sampleButton 0) = true ∧
    (sampleButton 0, some { type := InputType.kButton, index := 0, offset := 48 }) ∈
      assignment [sampleButton 0, sampleButton 1] ∧
    (sampleButton 0, some { type := InputType.kButton, index := 1, offset := 49 }) ∈
      assignment [sampleButton 1, sampleButton 0] := by
  refine ⟨List.Perm.swap _ _ _, ?_, ?_, ?_, List.Perm.swap _ _ _, ?_, ?_, ?_⟩ <;> decide

/-- C5 (amended): for two enumerations that are permutations of each other,
every non-slider axis object of the first is given a descriptor slot in both
runs, the raw offset it is given (none when its type identifier is not
recognised) is the same in both runs, and the sorted axes lists of the two
runs hold the same offset at every position. -/
theorem C5_non_slider_axis_offset_stable (e₁ e₂ : List DIDEVICEOBJECTINSTANCE)
    (h : e₁.Perm e₂) (o : DIDEVICEOBJECTINSTANCE) (ho : isNonSliderAxis o = true)
    (hm : o ∈ e₁) :
    (∃ x, (o, x) ∈ assignment e₁) ∧ (∃ x, (o, x) ∈ assignment e₂) ∧
    (∀ x₁ x₂, (o, x₁) ∈ assignment e₁ → (o, x₂) ∈ assignment e₂ →
      x₁.map Input.offset = x₂.map Input.offset) ∧
    (enumerateAndSort e₁).axes.map Input.offset = (enumerateAndSort e₂).axes.map Input.offset := by
  refine ⟨mem_assignment_of_mem e₁ o hm, mem_assignment_of_mem e₂ o (h.mem_iff.1 hm), ?_,
    sortByOffset_offsets_congr _ _ (enum_axes_offset_perm e₁ e₂ h)⟩
  intro x₁ x₂ h₁ h₂
  rw [assignmentFrom_nonSliderAxis e₁ {} o x₁ ho h₁, assignmentFrom_nonSliderAxis e₂ {} o x₂ ho h₂]

/-- Witness of C5 (amended): the Y axis of `sampleAxes`, enumerated first in
one run and last in the other. -/
theorem C5_non_slider_axis_offset_stable_witness :
    sampleAxes.Perm sampleAxes.reverse ∧
    isNonSliderAxis { guidType := GuidType.GUID_YAxis, dwType := 0x0002 } = true ∧
    ({ guidType := GuidType.GUID_YAxis, dwType := 0x0002 } : DIDEVICEOBJECTINSTANCE) ∈
      sampleAxes ∧
    ∀ x₁ x₂,
      ({ guidType := GuidType.GUID_YAxis, dwType := 0x0002 }, x₁) ∈ assignment sampleAxes →
      ({ guidType := GuidType.GUID_YAxis, dwType := 0x0002 }, x₂) ∈
        assignment sampleAxes.reverse →
      x₁.map Input.offset = x₂.map Input.offset :=
  ⟨(List.reverse_perm sampleAxes).symm, by decide, by decide,
    (C5_non_slider_axis_offset_stable sampleAxes sampleAxes.reverse
      (List.reverse_perm sampleAxes).symm _ (by decide) (by decide)).2.2.1⟩

theorem fixedAxisOffset_eq (o : DIDEVICEOBJECTINSTANCE) :
    fixedAxisOffset o = if isAxisObject o then fixedOffsetOfGuid o.guidType else none := by
  rcases o with ⟨g, t⟩
  by_cases h1 : t &&& DIDFT_POV ≠ 0 <;> by_cases h2 : t &&& DIDFT_BUTTON ≠ 0 <;>
    by_cases h3 : t &&& DIDFT_AXIS ≠ 0 <;> cases g <;>
    simp_all [fixedAxisOffset, branchOf, isAxisObject, fixedOffsetOfGuid]

theorem isSlider_eq (o : DIDEVICEOBJECTINSTANCE) :
    isSlider o = (isAxisObject o && decide (o.guidType = GuidType.GUID_Slider)) := by
  rcases o with ⟨g, t⟩
  by_cases h1 : t &&& DIDFT_POV ≠ 0 <;> by_cases h2 : t &&& DIDFT_BUTTON ≠ 0 <;>
    by_cases h3 : t &&& DIDFT_AXIS ≠ 0 <;> cases g <;>
    simp_all [isSlider, branchOf, isAxisObject]

theorem filterMap_fixedAxisOffset (objs : List DIDEVICEOBJECTINSTANCE) :
    objs.filterMap fixedAxisOffset =
      ((objs.filter isAxisObject).map DIDEVICEOBJECTINSTANCE.guidType).filterMap
        fixedOffsetOfGuid := by
  induction objs with
  | nil => rfl
  | cons o rest ih =>
    by_cases h : isAxisObject o = true
    · simp [List.filterMap_cons, List.filter_cons, fixedAxisOffset_eq, h, ← ih]
    · simp [List.filterMap_cons, List.filter_cons, fixedAxisOffset_eq, h, ← ih]

theorem countP_isSlider (objs : List DIDEVICEOBJECTINSTANCE) :
    objs.countP isSlider =
      ((objs.filter isAxisObject).map DIDEVICEOBJECTINSTANCE.guidType).count
        GuidType.GUID_Slider := by
  induction objs with
  | nil => rfl
  | cons o rest ih =>
    by_cases h : isAxisObject o = true <;> by_cases hg : o.guidType = GuidType.GUID_Slider <;>
      simp [List.countP_cons, List.filter_cons, List.count_cons, isSlider_eq, h, hg, ih]

theorem GetAxisName_eq (d : Device) (i : Nat) :
    d.GetAxisName i = ((d.axes.map Input.offset)[i]?).map axisNameOfOffset := by
  unfold Device.GetAxisName
  rw [List.getElem?_map]
  cases d.axes[i]? <;> rfl

/-- The axis offsets collected for a device with one axis object of each of
the six fixed types and one slider are the seven offsets `0, 4, .., 24`. -/
theorem gamepad_axes_offsets (objects : List DIDEVICEOBJECTINSTANCE)
    (ha : ((objects.filter isAxisObject).map DIDEVICEOBJECTINSTANCE.guidType).Perm
      [GuidType.GUID_XAxis, GuidType.GUID_YAxis, GuidType.GUID_ZAxis, GuidType.GUID_RxAxis,
        GuidType.GUID_RyAxis, GuidType.GUID_RzAxis, GuidType.GUID_Slider]) :
    (sortByOffset (EnumObjects objects).axes).map Input.offset = [0, 4, 8, 12, 16, 20, 24] := by
  have hperm : ((EnumObjects objects).axes.map Input.offset).Perm [0, 4, 8, 12, 16, 20, 24] := by
    rw [enum_axes_offset]
    have h0 : (0 : Nat) = toDWORD 0 := rfl
    rw [h0]
    refine (axisOffsetsFrom_perm objects 0).trans ?_
    rw [filterMap_fixedAxisOffset, countP_isSlider, ha.count_eq]
    have hf := ha.filterMap fixedOffsetOfGuid
    have hc : List.count GuidType.GUID_Slider
        [GuidType.GUID_XAxis, GuidType.GUID_YAxis, GuidType.GUID_ZAxis, GuidType.GUID_RxAxis,
          GuidType.GUID_RyAxis, GuidType.GUID_RzAxis, GuidType.GUID_Slider] = 1 := by decide
    rw [hc]
    exact List.Perm.append_right _ hf
  apply List.eq_of_perm_of_sorted (r := (· ≤ ·)) _ (sortByOffset_offsets_sorted _) (by decide)
  exact ((sortByOffset_perm _).map _).trans hperm

/-- C10: for a device exposing 2 hats, one axis object of each of the types
X, Y, Z, Rx, Ry, Rz, one slider and 8 buttons, in every enumeration order,
discovery yields an axes list of length 7 in ascending raw offset for which
`GetAxisName` returns "X", "Y", "Z", "Rx", "Ry", "Rz", "Slider 0" at the
indices 0..6, a hats list of length 2 and a buttons list of length 8. -/
theorem C10_gamepad_scenario (device_guid : GUID) (product_name : String)
    (pDevice : IDirectInputDevice8) (caps : DIDEVCAPS) (objects : List DIDEVICEOBJECTINSTANCE)
    (hh : objects.countP isHat = 2) (hb : objects.countP isButton = 8)
    (ha : ((objects.filter isAxisObject).map DIDEVICEOBJECTINSTANCE.guidType).Perm
      [GuidType.GUID_XAxis, GuidType.GUID_YAxis, GuidType.GUID_ZAxis, GuidType.GUID_RxAxis,
        GuidType.GUID_RyAxis, GuidType.GUID_RzAxis, GuidType.GUID_Slider]) :
    (buildDevice device_guid product_name pDevice caps objects).axes.length = 7 ∧
    AscendingByOffset (buildDevice device_guid product_name pDevice caps objects).axes ∧
    (List.range 7).map (buildDevice device_guid product_name pDevice caps objects).GetAxisName =
      [some "X", some "Y", some "Z", some "Rx", some "Ry", some "Rz", some "Slider 0"] ∧
    (buildDevice device_guid product_name pDevice caps objects).GetAxisName 6 = some "Slider 0" ∧
    (buildDevice device_guid product_name pDevice caps objects).povs.length = 2 ∧
    (buildDevice device_guid product_name pDevice caps objects).buttons.length = 8 := by
  have hoff := gamepad_axes_offsets objects ha
  have hd : (buildDevice device_guid product_name pDevice caps objects).axes =
      sortByOffset (EnumObjects objects).axes := rfl
  have hp : (buildDevice device_guid product_name pDevice caps objects).povs =
      sortByOffset (EnumObjects objects).povs := rfl
  have hbt : (buildDevice device_guid product_name pDevice caps objects).buttons =
      sortByOffset (EnumObjects objects).buttons := rfl
  have hname : (buildDevice device_guid product_name pDevice caps objects).GetAxisName =
      fun i => (([0, 4, 8, 12, 16, 20, 24] : List Nat)[i]?).map axisNameOfOffset := by
    funext i
    rw [GetAxisName_eq, hd, hoff]
  refine ⟨?_, ?_, ?_, ?_, ?_, ?_⟩
  · have := congrArg List.length hoff
    rw [hd]
    simpa using this
  · rw [hd]
    exact sortByOffset_ascending _
  · rw [hname]
    decide
  · rw [hname]
    decide
  · rw [hp, sortByOffset_length, enum_povs, List.length_map, List.length_range, hh]
  · rw [hbt, sortByOffset_length, enum_buttons, List.length_map, List.length_range, hb]

/-- Witness of C10: the mixed-order enumeration `sampleGamepad`. -/
theorem C10_gamepad_scenario_witness :
    sampleGamepad.countP isHat = 2 ∧ sampleGamepad.countP isButton = 8 ∧
    ((sampleGamepad.filter isAxisObject).map DIDEVICEOBJECTINSTANCE.guidType).Perm
      [GuidType.GUID_XAxis, GuidType.GUID_YAxis, GuidType.GUID_ZAxis, GuidType.GUID_RxAxis,
        GuidType.GUID_RyAxis, GuidType.GUID_RzAxis, GuidType.GUID_Slider] ∧
    (buildDevice 1 "pad" 1 {} sampleGamepad).axes.length = 7 ∧
    (buildDevice 1 "pad" 1 {} sampleGamepad).GetAxisName 6 = some "Slider 0" :=
  ⟨by decide, by decide, by decide,
    (C10_gamepad_scenario 1 "pad" 1 {} sampleGamepad (by decide) (by decide) (by decide)).1,
    (C10_gamepad_scenario 1 "pad" 1 {} sampleGamepad (by decide) (by decide) (by decide)).2.2.2.1⟩

/-! ## Claims about the registry -/

theorem find_isSome_iff (devices : List (GUID × Device)) (g : GUID) :
    (devices.find? (fun kvp => kvp.1 == g)).isSome = true ↔ g ∈ devices.map Prod.fst := by
  induction devices with
  | nil => simp
  | cons kvp rest ih =>
    by_cases h : kvp.1 = g
    · simp [List.find?_cons, h]
    · have h2 : ¬ g = kvp.1 := fun e => h e.symm
      simp [List.find?_cons, h, h2, ih]

theorem mapAssign_keys_of_not_mem (devices : List (GUID × Device)) (g : GUID) (d : Device)
    (h : g ∉ devices.map Prod.fst) :
    (mapAssign devices g d).map Prod.fst = devices.map Prod.fst ++ [g] := by
  unfold mapAssign
  have : ¬ (devices.find? (fun kvp => kvp.1 == g)).isSome = true := by
    rw [find_isSome_iff]; exact h
  simp [this]

theorem discoverDevice_keys (p : Platform) (s : Runtime) (g : GUID) :
    (discoverDevice p s g).ctx.keys =
      if g ∈ s.ctx.keys then s.ctx.keys
      else if discoverySucceeds p g = true then s.ctx.keys ++ [g] else s.ctx.keys := by
  unfold discoverDevice
  by_cases hk : g ∈ s.ctx.keys
  · have : (s.ctx.devices_.find? (fun kvp => kvp.1 == g)).isSome = true :=
      (find_isSome_iff _ _).2 hk
    simp [this, hk]
  · have hf : ¬ (s.ctx.devices_.find? (fun kvp => kvp.1 == g)).isSome = true := by
      rw [find_isSome_iff]; exact hk
    simp only [hf, hk, if_false]
    by_cases h1 : FAILED (p.CreateDevice g).1 = true
    · simp [h1, discoverySucceeds]
    · by_cases h2 : FAILED (p.GetProductName (p.CreateDevice g).2).1 = true
      · simp [h1, h2, discoverySucceeds, Runtime.release]
      · by_cases h3 : FAILED (p.SetCooperativeLevel (p.CreateDevice g).2) = true
        · simp [h1, h2, h3, discoverySucceeds, Runtime.release]
        · by_cases h4 : FAILED (p.SetDataFormat (p.CreateDevice g).2) = true
          · simp [h1, h2, h3, h4, discoverySucceeds, Runtime.release]
          · by_cases h5 : FAILED (p.GetCapabilities (p.CreateDevice g).2).1 = true
            · simp [h1, h2, h3, h4, h5, discoverySucceeds, Runtime.release]
            · simp only [h1, h2, h3, h4, h5, discoverySucceeds, DirectInputContext.keys]
              simp only [Bool.false_eq_true, if_false, Bool.not_false, Bool.and_self, if_true]
              exact mapAssign_keys_of_not_mem _ _ _ hk

theorem foldl_discover_keys (p : Platform) (gs : List GUID) (s : Runtime) (g : GUID) :
    g ∈ (gs.foldl (discoverDevice p) s).ctx.keys ↔
      g ∈ s.ctx.keys ∨ (g ∈ gs ∧ discoverySucceeds p g = true) := by
  induction gs generalizing s with
  | nil => simp
  | cons g₁ rest ih =>
    rw [List.foldl_cons, ih, discoverDevice_keys]
    by_cases hk : g₁ ∈ s.ctx.keys
    · simp only [hk, if_true, List.mem_cons]
      constructor
      · rintro (h | ⟨h, hs⟩)
        · exact Or.inl h
        · exact Or.inr ⟨Or.inr h, hs⟩
      · rintro (h | ⟨h | h, hs⟩)
        · exact Or.inl h
        · exact Or.inl (h ▸ hk)
        · exact Or.inr ⟨h, hs⟩
    · by_cases hs₁ : discoverySucceeds p g₁ = true
      · simp only [hk, hs₁, if_true, if_false, List.mem_append, List.mem_singleton]
        rw [List.mem_cons]
        constructor
        · rintro ((h | h) | ⟨h, hs⟩)
          · exact Or.inl h
          · exact Or.inr ⟨Or.inl h, h ▸ hs₁⟩
          · exact Or.inr ⟨Or.inr h, hs⟩
        · rintro (h | ⟨h | h, hs⟩)
          · exact Or.inl (Or.inl h)
          · exact Or.inl (Or.inr h)
          · exact Or.inr ⟨h, hs⟩
      · simp only [hk, hs₁, if_false, List.mem_cons]
        constructor
        · rintro (h | ⟨h, hs⟩)
          · exact Or.inl h
          · exact Or.inr ⟨Or.inr h, hs⟩
        · rintro (h | ⟨h | h, hs⟩)
          · exact Or.inl h
          · exact absurd (h ▸ hs) hs₁
          · exact Or.inr ⟨h, hs⟩

theorem erase_if_keys (devices : List (GUID × Device)) (S : List GUID) :
    (erase_if devices (fun kvp => !S.contains kvp.1)).map Prod.fst =
      (devices.map Prod.fst).filter (fun g => S.contains g) := by
  unfold erase_if
  rw [List.filter_map]
  congr 1
  apply List.filter_congr
  intro kvp _
  simp

theorem mem_erase_if_keys (devices : List (GUID × Device)) (S : List GUID) (g : GUID) :
    g ∈ (erase_if devices (fun kvp => !S.contains kvp.1)).map Prod.fst ↔
      g ∈ devices.map Prod.fst ∧ g ∈ S := by
  rw [erase_if_keys, List.mem_filter]
  simp

theorem UpdateDetection_eq (p : Platform) (s : Runtime) (di : IDirectInput8)
    (h : s.ctx.pDI_ = some di) :
    UpdateDetection p s = some (p.EnumDevices.foldl (discoverDevice p)
      { s with ctx := { s.ctx with
          devices_ := erase_if s.ctx.devices_ (fun kvp => !p.EnumDevices.contains kvp.1) } }) := by
  unfold UpdateDetection
  rw [h]

theorem discoverDevice_keys_nodup (p : Platform) (s : Runtime) (g : GUID)
    (h : s.ctx.keys.Nodup) : (discoverDevice p s g).ctx.keys.Nodup := by
  rw [discoverDevice_keys]
  by_cases hk : g ∈ s.ctx.keys
  · simpa [hk] using h
  · by_cases hs : discoverySucceeds p g = true
    · simp only [hk, hs, if_true, if_false]
      exact List.Nodup.append h (List.nodup_singleton g) (by simpa using hk)
    · simpa [hk, hs] using h

theorem foldl_discover_keys_nodup (p : Platform) (gs : List GUID) (s : Runtime)
    (h : s.ctx.keys.Nodup) : (gs.foldl (discoverDevice p) s).ctx.keys.Nodup := by
  induction gs generalizing s with
  | nil => exact h
  | cons g rest ih => exact ih _ (discoverDevice_keys_nodup p s g h)

/-- C6: with a live subsystem object, one `UpdateDetection` call on a registry
with key set `K` and attachment set `S` returns, and the key set afterwards is
`(K ∩ S) ∪ { g ∈ S minus K : the five discovery steps succeed for g }`; keys stay
unique; `{} → {A}` gives exactly `{A}` when the steps of `A` succeed, and
`{A, B} → {B}` gives exactly `{B}`. -/
theorem C6_registry_key_set (p : Platform) (s : Runtime) (di : IDirectInput8)
    (h : s.ctx.pDI_ = some di) :
    ∃ s₁, UpdateDetection p s = some s₁ ∧
      (∀ g, g ∈ s₁.ctx.keys ↔
        (g ∈ s.ctx.keys ∧ g ∈ p.EnumDevices) ∨
        (g ∈ p.EnumDevices ∧ g ∉ s.ctx.keys ∧ discoverySucceeds p g = true)) ∧
      (s.ctx.keys.Nodup → s₁.ctx.keys.Nodup) ∧
      (∀ A, s.ctx.keys = [] → (∀ g, g ∈ p.EnumDevices ↔ g = A) →
        discoverySucceeds p A = true → ∀ g, g ∈ s₁.ctx.keys ↔ g = A) ∧
      (∀ A B, A ≠ B → (∀ g, g ∈ s.ctx.keys ↔ g = A ∨ g = B) →
        (∀ g, g ∈ p.EnumDevices ↔ g = B) → ∀ g, g ∈ s₁.ctx.keys ↔ g = B) := by
  have hgen : ∀ g, g ∈ (p.EnumDevices.foldl (discoverDevice p)
      { s with ctx := { s.ctx with
          devices_ := erase_if s.ctx.devices_
            (fun kvp => !p.EnumDevices.contains kvp.1) } }).ctx.keys ↔
        (g ∈ s.ctx.keys ∧ g ∈ p.EnumDevices) ∨
        (g ∈ p.EnumDevices ∧ g ∉ s.ctx.keys ∧ discoverySucceeds p g = true) := by
    intro g
    rw [foldl_discover_keys]
    simp only [DirectInputContext.keys, mem_erase_if_keys]
    constructor
    · rintro (⟨hk, hs⟩ | ⟨hs, hsucc⟩)
      · exact Or.inl ⟨hk, hs⟩
      · by_cases hk : g ∈ s.ctx.devices_.map Prod.fst
        · exact Or.inl ⟨hk, hs⟩
        · exact Or.inr ⟨hs, hk, hsucc⟩
    · rintro (⟨hk, hs⟩ | ⟨hs, _, hsucc⟩)
      · exact Or.inl ⟨hk, hs⟩
      · exact Or.inr ⟨hs, hsucc⟩
  refine ⟨_, UpdateDetection_eq p s di h, hgen, ?_, ?_, ?_⟩
  · intro hn
    apply foldl_discover_keys_nodup
    simp only [DirectInputContext.keys, erase_if_keys]
    exact hn.filter _
  · intro A hK hS hsucc g
    rw [hgen, hK, hS]
    constructor
    · rintro (⟨hk, _⟩ | ⟨hg, _, _⟩)
      · simp at hk
      · exact hg
    · intro hg
      exact Or.inr ⟨hg, by simp, hg ▸ hsucc⟩
  · intro A B _ hK hS g
    rw [hgen, hK, hS]
    constructor
    · rintro (⟨_, hg⟩ | ⟨hg, _, _⟩) <;> exact hg
    · intro hg
      exact Or.inl ⟨Or.inr hg, hg⟩

/-- Witness of C6: the registry `{10, 40}` against the attachment set
`{10, 20, 30}` on which identity 30 cannot be opened. -/
theorem C6_registry_key_set_witness :
    sampleRuntime.ctx.pDI_ = some 1 ∧
    ∃ s₁, UpdateDetection samplePlatform sampleRuntime = some s₁ ∧
      (∀ g, g ∈ s₁.ctx.keys ↔
        (g ∈ sampleRuntime.ctx.keys ∧ g ∈ samplePlatform.EnumDevices) ∨
        (g ∈ samplePlatform.EnumDevices ∧ g ∉ sampleRuntime.ctx.keys ∧
          discoverySucceeds samplePlatform g = true)) :=
  ⟨rfl, (C6_registry_key_set samplePlatform sampleRuntime 1 rfl).imp
    (fun _ hs => ⟨hs.1, hs.2.1⟩)⟩

/-- Erasing registry entries and failing or succeeding discoveries release no
handle other than one returned by `CreateDevice` during the call. -/
theorem discoverDevice_releaseCount (p : Platform) (s : Runtime) (g : GUID)
    (pDevice : IDirectInputDevice8) (hne : (p.CreateDevice g).2 ≠ pDevice) :
    (discoverDevice p s g).releaseCount pDevice = s.releaseCount pDevice := by
  unfold discoverDevice
  have hc : ∀ t : Runtime, (t.release (p.CreateDevice g).2).releaseCount pDevice =
      t.releaseCount pDevice := by
    intro t
    simp [Runtime.release, Runtime.releaseCount, List.count_append, List.count_singleton, hne]
  by_cases h0 : (s.ctx.devices_.find? (fun kvp => kvp.1 == g)).isSome = true
  · simp [h0]
  · by_cases h1 : FAILED (p.CreateDevice g).1 = true
    · simp [h0, h1]
    · by_cases h2 : FAILED (p.GetProductName (p.CreateDevice g).2).1 = true
      · simp only [h0, h1, h2, if_true, if_false]; exact hc s
      · by_cases h3 : FAILED (p.SetCooperativeLevel (p.CreateDevice g).2) = true
        · simp only [h0, h1, h2, h3, if_true, if_false]; exact hc s
        · by_cases h4 : FAILED (p.SetDataFormat (p.CreateDevice g).2) = true
          · simp only [h0, h1, h2, h3, h4, if_true, if_false]; exact hc s
          · by_cases h5 : FAILED (p.GetCapabilities (p.CreateDevice g).2).1 = true
            · simp only [h0, h1, h2, h3, h4, h5, if_true, if_false]; exact hc s
            · simp only [h0, h1, h2, h3, h4, h5, if_false]
              rfl

theorem foldl_discover_releaseCount (p : Platform) (gs : List GUID) (s : Runtime)
    (pDevice : IDirectInputDevice8) (hne : ∀ g ∈ gs, (p.CreateDevice g).2 ≠ pDevice) :
    (gs.foldl (discoverDevice p) s).releaseCount pDevice = s.releaseCount pDevice := by
  induction gs generalizing s with
  | nil => rfl
  | cons g rest ih =>
    rw [List.foldl_cons, ih _ (fun g₁ hg => hne g₁ (List.mem_cons_of_mem _ hg)),
      discoverDevice_releaseCount p s g pDevice (hne g (List.mem_cons_self _ _))]

/-- Every record that `UpdateDetection` deletes keeps its handle unreleased:
for a handle the platform does not hand out again during the call, the release
count after the call equals the release count before it. -/
theorem UpdateDetection_releases_no_registered_handle (p : Platform) (s : Runtime)
    (di : IDirectInput8) (h : s.ctx.pDI_ = some di) (pDevice : IDirectInputDevice8)
    (hne : ∀ g ∈ p.EnumDevices, (p.CreateDevice g).2 ≠ pDevice) :
    ∃ s₁, UpdateDetection p s = some s₁ ∧ s₁.releaseCount pDevice = s.releaseCount pDevice := by
  refine ⟨_, UpdateDetection_eq p s di h, ?_⟩
  rw [foldl_discover_releaseCount p _ _ pDevice hne]
  rfl

/-- C7 (evaluation of the code): the registry holds identity 10 with handle
110 and identity 40 with handle 140, and only identity 10 is still attached.
`UpdateDetection` deletes the record of identity 40, and `Release` has been
called on handle 140 zero times. -/
theorem C7_removed_handle_not_released :
    ∃ s₁, UpdateDetection unpluggedPlatform sampleRuntime = some s₁ ∧
      s₁.ctx.keys = [10] ∧ sampleRuntime.ctx.handles = [110, 140] ∧
      sampleRuntime.releaseCount 140 = 0 ∧ s₁.releaseCount 140 = 0 ∧ s₁.deviceReleases = [] :=
  ⟨_, UpdateDetection_eq unpluggedPlatform sampleRuntime 1 rfl, by decide, by decide, by decide,
    by decide, by decide⟩

/-! ## Claims about sampling and shutdown -/

theorem updateStateLoop_keys {σ : Type} (drv : DeviceDriver σ) (devices : List (GUID × Device))
    (w : σ) : (updateStateLoop drv w devices).2.map Prod.fst = devices.map Prod.fst := by
  induction devices generalizing w with
  | nil => rfl
  | cons kvp rest ih => simp [updateStateLoop, ih]

theorem updateStateLoop_getElem {σ : Type} (drv : DeviceDriver σ)
    (devices : List (GUID × Device)) (w : σ) (i : Nat) (hi : i < devices.length) :
    (updateStateLoop drv w devices).2[i]? =
      some ((devices.get ⟨i, hi⟩).1,
        (updateDeviceState drv (updateStateLoop drv w (devices.take i)).1
          (devices.get ⟨i, hi⟩).2).2) := by
  induction devices generalizing w i with
  | nil => simp at hi
  | cons kvp rest ih =>
    cases i with
    | zero => simp [updateStateLoop]
    | succ j =>
      have hj : j < rest.length := by simpa using hi
      simp only [updateStateLoop, List.getElem?_cons_succ, List.take_succ_cons, List.get_cons_succ]
      exact ih _ j hj

theorem updateDeviceState_lost {σ : Type} (drv : DeviceDriver σ) (w : σ) (device : Device)
    (hlost : (drv.Poll device.pDevice w).1 = DIERR_INPUTLOST ∨
      (drv.Poll device.pDevice w).1 = DIERR_NOTACQUIRED) :
    (FAILED (drv.Poll device.pDevice
        (drv.Acquire device.pDevice (drv.Poll device.pDevice w).2).2).1 = false →
      FAILED (drv.GetDeviceState device.pDevice (drv.Poll device.pDevice
        (drv.Acquire device.pDevice (drv.Poll device.pDevice w).2).2).2).1.1 = false →
      (updateDeviceState drv w device).2.state =
        (drv.GetDeviceState device.pDevice (drv.Poll device.pDevice
          (drv.Acquire device.pDevice (drv.Poll device.pDevice w).2).2).2).1.2) ∧
    (FAILED (drv.Poll device.pDevice
        (drv.Acquire device.pDevice (drv.Poll device.pDevice w).2).2).1 = true →
      (updateDeviceState drv w device).2.state = device.state) := by
  constructor
  · intro hr hread
    simp [updateDeviceState, hlost, hr, readDeviceState, hread]
  · intro hr
    simp [updateDeviceState, hlost, hr]

/-- C8: in one `UpdateState` call, for the device at any position of the
registry, with the platform in the state in which the loop reaches it: the
device is still registered at that position under the same identity, and if
its first poll returns input-lost or not-acquired then (a) when the poll
retried after `Acquire` and the state read both succeed its stored state is
the snapshot just read, and (b) when the retried poll fails its stored state
is the one it had before the call. -/
theorem C8_transient_loss (σ : Type) (drv : DeviceDriver σ) (w : σ) (c : DirectInputContext)
    (i : Nat) (hi : i < c.devices_.length) :
    let before := c.devices_.get ⟨i, hi⟩
    let w₀ := (updateStateLoop drv w (c.devices_.take i)).1
    let polled := drv.Poll before.2.pDevice w₀
    let retried := drv.Poll before.2.pDevice (drv.Acquire before.2.pDevice polled.2).2
    let read := drv.GetDeviceState before.2.pDevice retried.2
    (UpdateState drv w c).2.keys = c.keys ∧
    ∃ after : Device,
      (UpdateState drv w c).2.devices_[i]? = some (before.1, after) ∧
      ((polled.1 = DIERR_INPUTLOST ∨ polled.1 = DIERR_NOTACQUIRED) →
        (FAILED retried.1 = false → FAILED read.1.1 = false → after.state = read.1.2) ∧
        (FAILED retried.1 = true → after.state = before.2.state)) := by
  intro before w₀ polled retried read
  refine ⟨updateStateLoop_keys drv c.devices_ w, (updateDeviceState drv w₀ before.2).2,
    updateStateLoop_getElem drv c.devices_ w i hi, ?_⟩
  intro hlost
  exact updateDeviceState_lost drv w₀ before.2 hlost

/-- Witness of C8: two registered devices on a platform whose polls report
lost access until the device is acquired; the first device recovers through
the retry and stores the snapshot. -/
theorem C8_transient_loss_witness :
    0 < sampleRuntime.ctx.devices_.length ∧
    (recoveringDriver.Poll 110 0).1 = DIERR_INPUTLOST ∧
    (UpdateState recoveringDriver 0 sampleRuntime.ctx).2.keys = sampleRuntime.ctx.keys ∧
    ∃ after : Device,
      (UpdateState recoveringDriver 0 sampleRuntime.ctx).2.devices_[0]? = some (10, after) ∧
      after.state = sampleSnapshot := by
  have h := C8_transient_loss Nat recoveringDriver 0 sampleRuntime.ctx 0 (by decide)
  refine ⟨by decide, by decide, h.1, ?_⟩
  rcases h.2 with ⟨after, hget, hstate⟩
  exact ⟨after, hget, (hstate (Or.inl (by decide))).1 (by decide) (by decide)⟩

theorem foldl_release_log (devices : List (GUID × Device)) (log : List IDirectInputDevice8) :
    devices.foldl (fun released kvp => released ++ [kvp.2.pDevice]) log =
      log ++ devices.map (fun kvp => kvp.2.pDevice) := by
  induction devices generalizing log with
  | nil => simp
  | cons kvp rest ih => simp [ih]

/-- C9: `Shutdown` calls `Release` once per registered device record, so every
registered handle (handles being distinct) is released exactly once and no
other handle is released; it leaves the registry empty and the subsystem
pointer null, releases the subsystem object once when it was live, and a
second `Shutdown` changes nothing and releases nothing again. -/
theorem C9_shutdown (s : Runtime) (hn : s.ctx.handles.Nodup) :
    (Shutdown s).ctx.devices_ = [] ∧ (Shutdown s).ctx.pDI_ = none ∧
    (Shutdown s).deviceReleases = s.deviceReleases ++ s.ctx.handles ∧
    (∀ kvp ∈ s.ctx.devices_,
      (Shutdown s).releaseCount kvp.2.pDevice = s.releaseCount kvp.2.pDevice + 1) ∧
    (∀ pDevice, pDevice ∉ s.ctx.handles →
      (Shutdown s).releaseCount pDevice = s.releaseCount pDevice) ∧
    (Shutdown s).contextReleases = s.contextReleases ++ s.ctx.pDI_.toList ∧
    Shutdown (Shutdown s) = Shutdown s := by
  have hlog : (Shutdown s).deviceReleases = s.deviceReleases ++ s.ctx.handles := by
    simp [Shutdown, foldl_release_log, DirectInputContext.handles]
  refine ⟨rfl, rfl, hlog, ?_, ?_, ?_, ?_⟩
  · intro kvp hk
    have hmem : kvp.2.pDevice ∈ s.ctx.handles := List.mem_map.2 ⟨kvp, hk, rfl⟩
    simp only [Runtime.releaseCount, hlog, List.count_append]
    rw [List.count_eq_one_of_mem hn hmem]
  · intro pDevice hmem
    simp only [Runtime.releaseCount, hlog, List.count_append]
    rw [List.count_eq_zero_of_not_mem hmem]
    rfl
  · cases hp : s.ctx.pDI_ <;> simp [Shutdown, ReleaseDirectInput8, hp]
  · simp [Shutdown, ReleaseDirectInput8]

/-- Witness of C9: the sample system with two registered devices. -/
theorem C9_shutdown_witness :
    sampleRuntime.ctx.handles.Nodup ∧
    (Shutdown sampleRuntime).releaseCount 110 = 1 ∧
    (Shutdown sampleRuntime).releaseCount 140 = 1 ∧
    (Shutdown sampleRuntime).contextReleases = [1] ∧
    Shutdown (Shutdown sampleRuntime) = Shutdown sampleRuntime :=
  ⟨by decide, by decide, by decide, by decide,
    (C9_shutdown sampleRuntime (by decide)).2.2.2.2.2.2⟩

/-! ## Claims about the accessors -/

theorem fixedAxisOffset_labelled (o : DIDEVICEOBJECTINSTANCE) (x : Nat)
    (h : fixedAxisOffset o = some x) : x ∈ labelledOffsets := by
  rw [fixedAxisOffset_eq] at h
  by_cases ha : isAxisObject o = true
  · rw [if_pos ha] at h
    cases hg : o.guidType <;> rw [hg] at h <;> simp [fixedOffsetOfGuid] at h <;>
      subst h <;> decide
  · rw [if_neg ha] at h
    simp at h

theorem sliderOffsetAt_labelled (i : Nat) (h : i < 2) : sliderOffsetAt i ∈ labelledOffsets := by
  interval_cases i <;> decide

/-- With at most two sliders every offset stored in the axes list is one of
the eight offsets `GetAxisName` has a label for. -/
theorem axes_offsets_labelled (objects : List DIDEVICEOBJECTINSTANCE)
    (h : objects.countP isSlider ≤ 2) (x : Nat)
    (hx : x ∈ (sortByOffset (EnumObjects objects).axes).map Input.offset) :
    x ∈ labelledOffsets := by
  have h1 : x ∈ (EnumObjects objects).axes.map Input.offset :=
    ((sortByOffset_perm _).map _).mem_iff.1 hx
  rw [enum_axes_offset] at h1
  have h0 : (0 : Nat) = toDWORD 0 := rfl
  rw [h0] at h1
  have h2 := (axisOffsetsFrom_perm objects 0).mem_iff.1 h1
  rcases List.mem_append.1 h2 with hf | hs
  · rcases List.mem_filterMap.1 hf with ⟨o, _, ho⟩
    exact fixedAxisOffset_labelled o x ho
  · rcases List.mem_map.1 hs with ⟨i, hi, rfl⟩
    rw [List.mem_range] at hi
    rw [Nat.zero_add]
    exact sliderOffsetAt_labelled i (by omega)

theorem axisNameOfOffset_labelled (x : Nat) (h : x ∈ labelledOffsets) :
    axisNameOfOffset x ∈ axisLabels ∧ axisNameOfOffset x ≠ "Unknown" := by
  simp only [labelledOffsets, List.mem_cons, List.mem_singleton, List.not_mem_nil, or_false] at h
  rcases h with h | h | h | h | h | h | h | h <;> subst h <;> decide

/-- C11 (counterexample): for a device with three slider objects the axes list
has length 3 and `GetAxisName` returns "Unknown" at index 2, whose descriptor
has offset 32. -/
theorem C11_third_slider_unknown :
    (buildDevice 1 "pad" 1 {} sampleThreeSliders).axes.length = 3 ∧
    (buildDevice 1 "pad" 1 {} sampleThreeSliders).axes.map Input.offset = [24, 28, 32] ∧
    (buildDevice 1 "pad" 1 {} sampleThreeSliders).GetAxisName 2 = some "Unknown" := by
  refine ⟨?_, ?_, ?_⟩ <;> decide

/-- C11 (amended): for every device record built from an enumeration with at
most two slider objects and for every index below the length of the axes list,
`GetAxisName` returns one of "X", "Y", "Z", "Rx", "Ry", "Rz", "Slider 0",
"Slider 1" and not "Unknown". -/
theorem C11_axis_name_labelled (device_guid : GUID) (product_name : String)
    (pDevice : IDirectInputDevice8) (caps : DIDEVCAPS) (objects : List DIDEVICEOBJECTINSTANCE)
    (h : objects.countP isSlider ≤ 2) (i : Nat)
    (hi : i < (buildDevice device_guid product_name pDevice caps objects).axes.length) :
    ∃ name, (buildDevice device_guid product_name pDevice caps objects).GetAxisName i = some name ∧
      name ∈ axisLabels ∧ name ≠ "Unknown" := by
  have hd : (buildDevice device_guid product_name pDevice caps objects).axes =
      sortByOffset (EnumObjects objects).axes := rfl
  rw [hd] at hi
  rw [GetAxisName_eq, hd]
  have hlen : i < ((sortByOffset (EnumObjects objects).axes).map Input.offset).length := by
    simpa using hi
  rw [List.getElem?_eq_getElem hlen]
  have hmem := axes_offsets_labelled objects h _ (List.getElem_mem hlen)
  exact ⟨_, rfl, axisNameOfOffset_labelled _ hmem⟩

/-- Witness of C11 (amended): the last axis of the mixed-order gamepad
enumeration, which has one slider. -/
theorem C11_axis_name_labelled_witness :
    sampleGamepad.countP isSlider ≤ 2 ∧
    6 < (buildDevice 1 "pad" 1 {} sampleGamepad).axes.length ∧
    ∃ name, (buildDevice 1 "pad" 1 {} sampleGamepad).GetAxisName 6 = some name ∧
      name ∈ axisLabels ∧ name ≠ "Unknown" :=
  ⟨by decide, by decide, C11_axis_name_labelled 1 "pad" 1 {} sampleGamepad (by decide) 6 (by decide)⟩

set_option maxRecDepth 100000 in
theorem buttonPressed_byte : ∀ x : Fin 256, (buttonPressed x.val = true ↔ 0x80 ≤ x.val) := by
  decide

/-- C12: the decoding `(raw & 0x80) != 0` of a button byte yields pressed
exactly when the byte is at least `0x80`; `0x80` decodes to pressed, `0x00` and
`0x7F` to not pressed. -/
theorem C12_button_decoding (b : Nat) (h : b < 256) :
    (buttonPressed b = true ↔ 0x80 ≤ b) ∧
    buttonPressed 0x80 = true ∧ buttonPressed 0x00 = false ∧ buttonPressed 0x7F = false := by
  refine ⟨?_, by decide, by decide, by decide⟩
  exact buttonPressed_byte ⟨b, h⟩

/-- Witness of C12: the byte `0xFF`. -/
theorem C12_button_decoding_witness :
    (255 : Nat) < 256 ∧ (buttonPressed 255 = true ↔ 0x80 ≤ 255) :=
  ⟨by decide, (C12_button_decoding 255 (by decide)).1⟩

/-! ## Claims about sampling, counts and retained records -/

theorem updateDeviceState_cases {σ : Type} (drv : DeviceDriver σ) (w : σ) (device : Device) :
    (((drv.Poll device.pDevice w).1 = DIERR_INPUTLOST ∨
        (drv.Poll device.pDevice w).1 = DIERR_NOTACQUIRED) →
      FAILED (drv.Poll device.pDevice
        (drv.Acquire device.pDevice (drv.Poll device.pDevice w).2).2).1 = true →
      (updateDeviceState drv w device).2 = device) ∧
    (((drv.Poll device.pDevice w).1 = DIERR_INPUTLOST ∨
        (drv.Poll device.pDevice w).1 = DIERR_NOTACQUIRED) →
      FAILED (drv.Poll device.pDevice
        (drv.Acquire device.pDevice (drv.Poll device.pDevice w).2).2).1 = false →
      (updateDeviceState drv w device).2 =
        (readDeviceState drv (drv.Poll device.pDevice
          (drv.Acquire device.pDevice (drv.Poll device.pDevice w).2).2).2 device).2) ∧
    (¬ ((drv.Poll device.pDevice w).1 = DIERR_INPUTLOST ∨
        (drv.Poll device.pDevice w).1 = DIERR_NOTACQUIRED) →
      (updateDeviceState drv w device).2 =
        (readDeviceState drv (drv.Poll device.pDevice w).2 device).2) := by
  refine ⟨?_, ?_, ?_⟩
  · intro hl hr
    simp [updateDeviceState, hl, hr]
  · intro hl hr
    simp [updateDeviceState, hl, hr]
  · intro hl
    simp only [updateDeviceState, if_neg hl]

theorem readDeviceState_cases {σ : Type} (drv : DeviceDriver σ) (w : σ) (device : Device) :
    (FAILED (drv.GetDeviceState device.pDevice w).1.1 = true →
      (readDeviceState drv w device).2 = device) ∧
    (FAILED (drv.GetDeviceState device.pDevice w).1.1 = false →
      (readDeviceState drv w device).2 =
        { device with state := (drv.GetDeviceState device.pDevice w).1.2 }) := by
  constructor
  · intro h
    simp [readDeviceState, h]
  · intro h
    simp [readDeviceState, h]

/-- C13 (counterexample): on a platform whose polls fail with `E_FAIL`, which
is neither input-lost nor not-acquired, while the state read succeeds, one
`UpdateState` call overwrites the stored state of the first registered device
with the snapshot read. -/
theorem C13_failed_poll_still_overwrites :
    FAILED (failingPollDriver.Poll 110 0).1 = true ∧
    (failingPollDriver.Poll 110 0).1 ≠ DIERR_INPUTLOST ∧
    (failingPollDriver.Poll 110 0).1 ≠ DIERR_NOTACQUIRED ∧
    (sampleRuntime.ctx.GetDevice 10).map (fun d => d.state) = some {} ∧
    ((UpdateState failingPollDriver 0 sampleRuntime.ctx).2.GetDevice 10).map (fun d => d.state) =
      some sampleSnapshot ∧
    sampleSnapshot ≠ {} := by
  refine ⟨?_, ?_, ?_, ?_, ?_, ?_⟩ <;> decide

/-- The loop body of `UpdateState` with the platform state it leaves: after a
lost first poll and a failed retry nothing more is called; otherwise the state
read is the last call. -/
theorem updateDeviceState_outcome {σ : Type} (drv : DeviceDriver σ) (w : σ) (device : Device) :
    (((drv.Poll device.pDevice w).1 = DIERR_INPUTLOST ∨
        (drv.Poll device.pDevice w).1 = DIERR_NOTACQUIRED) →
      FAILED (drv.Poll device.pDevice
        (drv.Acquire device.pDevice (drv.Poll device.pDevice w).2).2).1 = true →
      updateDeviceState drv w device =
        ((drv.Poll device.pDevice
          (drv.Acquire device.pDevice (drv.Poll device.pDevice w).2).2).2, device)) ∧
    (((drv.Poll device.pDevice w).1 = DIERR_INPUTLOST ∨
        (drv.Poll device.pDevice w).1 = DIERR_NOTACQUIRED) →
      FAILED (drv.Poll device.pDevice
        (drv.Acquire device.pDevice (drv.Poll device.pDevice w).2).2).1 = false →
      updateDeviceState drv w device =
        readDeviceState drv (drv.Poll device.pDevice
          (drv.Acquire device.pDevice (drv.Poll device.pDevice w).2).2).2 device) ∧
    (¬ ((drv.Poll device.pDevice w).1 = DIERR_INPUTLOST ∨
        (drv.Poll device.pDevice w).1 = DIERR_NOTACQUIRED) →
      updateDeviceState drv w device =
        readDeviceState drv (drv.Poll device.pDevice w).2 device) := by
  refine ⟨?_, ?_, ?_⟩
  · intro hl hr
    simp [updateDeviceState, hl, hr]
  · intro hl hr
    simp [updateDeviceState, hl, hr]
  · intro hl
    simp only [updateDeviceState, if_neg hl]

theorem readDeviceState_outcome {σ : Type} (drv : DeviceDriver σ) (w : σ) (device : Device) :
    (FAILED (drv.GetDeviceState device.pDevice w).1.1 = true →
      readDeviceState drv w device = ((drv.GetDeviceState device.pDevice w).2, device)) ∧
    (FAILED (drv.GetDeviceState device.pDevice w).1.1 = false →
      readDeviceState drv w device =
        ((drv.GetDeviceState device.pDevice w).2,
          { device with state := (drv.GetDeviceState device.pDevice w).1.2 })) := by
  constructor
  · intro h
    simp [readDeviceState, h]
  · intro h
    simp [readDeviceState, h]

/-- The platform state after the first `n` devices is the state in which the
loop goes on with the remaining ones. -/
theorem updateStateLoop_split {σ : Type} (drv : DeviceDriver σ)
    (devices : List (GUID × Device)) (w : σ) (n : Nat) :
    (updateStateLoop drv w devices).1 =
      (updateStateLoop drv (updateStateLoop drv w (devices.take n)).1 (devices.drop n)).1 := by
  induction devices generalizing w n with
  | nil => simp [updateStateLoop]
  | cons kvp rest ih =>
    cases n with
    | zero => simp [updateStateLoop]
    | succ m =>
      simp only [List.take_succ_cons, List.drop_succ_cons, updateStateLoop]
      exact ih _ m

/-- The platform state after the device at position `i` is the state left by
the loop body run on it. -/
theorem updateStateLoop_take_succ {σ : Type} (drv : DeviceDriver σ)
    (devices : List (GUID × Device)) (w : σ) (i : Nat) (hi : i < devices.length) :
    (updateStateLoop drv w (devices.take (i + 1))).1 =
      (updateDeviceState drv (updateStateLoop drv w (devices.take i)).1
        (devices.get ⟨i, hi⟩).2).1 := by
  induction devices generalizing w i with
  | nil => simp at hi
  | cons kvp rest ih =>
    cases i with
    | zero => simp [updateStateLoop]
    | succ j =>
      have hj : j < rest.length := by simpa using hi
      simp only [List.take_succ_cons, updateStateLoop, List.get_cons_succ]
      exact ih _ j hj

/-- C13 (amended): in one `UpdateState` call, for the device at any position
of the registry, with `w₀` the platform state in which the loop reaches it and
`w₁` the platform state in which the loop goes on after it: the state read is
skipped exactly when the first poll returns input-lost or not-acquired and the
retried poll fails, and then the record is unchanged and `w₁` is the platform
state right after the retried poll (no `GetDeviceState` call is made);
otherwise the read is made (after the retried poll when there was one, else
after the first poll, whatever its result) and `w₁` is the platform state
after the read, the record is unchanged when the read fails, and when the read
succeeds only its stored state changes, to the snapshot read. -/
theorem C13_state_overwritten_only_by_read (σ : Type) (drv : DeviceDriver σ) (w : σ)
    (c : DirectInputContext) (i : Nat) (hi : i < c.devices_.length) :
    let before := c.devices_.get ⟨i, hi⟩
    let w₀ := (updateStateLoop drv w (c.devices_.take i)).1
    let polled := drv.Poll before.2.pDevice w₀
    let retried := drv.Poll before.2.pDevice (drv.Acquire before.2.pDevice polled.2).2
    let readAfterRetry := drv.GetDeviceState before.2.pDevice retried.2
    let readAfterPoll := drv.GetDeviceState before.2.pDevice polled.2
    ∃ (after : Device) (w₁ : σ),
      (UpdateState drv w c).2.devices_[i]? = some (before.1, after) ∧
      (updateStateLoop drv w (c.devices_.take (i + 1))).1 = w₁ ∧
      (UpdateState drv w c).1 = (updateStateLoop drv w₁ (c.devices_.drop (i + 1))).1 ∧
      ((polled.1 = DIERR_INPUTLOST ∨ polled.1 = DIERR_NOTACQUIRED) →
        (FAILED retried.1 = true → after = before.2 ∧ w₁ = retried.2) ∧
        (FAILED retried.1 = false → FAILED readAfterRetry.1.1 = true →
          after = before.2 ∧ w₁ = readAfterRetry.2) ∧
        (FAILED retried.1 = false → FAILED readAfterRetry.1.1 = false →
          after = { before.2 with state := readAfterRetry.1.2 } ∧ w₁ = readAfterRetry.2)) ∧
      (¬ (polled.1 = DIERR_INPUTLOST ∨ polled.1 = DIERR_NOTACQUIRED) →
        (FAILED readAfterPoll.1.1 = true → after = before.2 ∧ w₁ = readAfterPoll.2) ∧
        (FAILED readAfterPoll.1.1 = false →
          after = { before.2 with state := readAfterPoll.1.2 } ∧ w₁ = readAfterPoll.2)) := by
  intro before w₀ polled retried readAfterRetry readAfterPoll
  refine ⟨(updateDeviceState drv w₀ before.2).2, (updateDeviceState drv w₀ before.2).1,
    updateStateLoop_getElem drv c.devices_ w i hi,
    updateStateLoop_take_succ drv c.devices_ w i hi, ?_, ?_, ?_⟩
  · rw [← updateStateLoop_take_succ drv c.devices_ w i hi]
    exact updateStateLoop_split drv c.devices_ w (i + 1)
  · intro hl
    refine ⟨?_, ?_, ?_⟩
    · intro hr
      rw [(updateDeviceState_outcome drv w₀ before.2).1 hl hr]
      exact ⟨rfl, rfl⟩
    · intro hr hread
      rw [(updateDeviceState_outcome drv w₀ before.2).2.1 hl hr,
        (readDeviceState_outcome drv _ before.2).1 hread]
      exact ⟨rfl, rfl⟩
    · intro hr hread
      rw [(updateDeviceState_outcome drv w₀ before.2).2.1 hl hr,
        (readDeviceState_outcome drv _ before.2).2 hread]
      exact ⟨rfl, rfl⟩
  · intro hl
    rw [(updateDeviceState_outcome drv w₀ before.2).2.2 hl]
    refine ⟨?_, ?_⟩
    · intro hread
      rw [(readDeviceState_outcome drv _ before.2).1 hread]
      exact ⟨rfl, rfl⟩
    · intro hread
      rw [(readDeviceState_outcome drv _ before.2).2 hread]
      exact ⟨rfl, rfl⟩

/-- Witness of C13 (amended): the last registered device on the platform whose
polls report lost access also after `Acquire` and whose state reads would
succeed and be counted; the record is unchanged and no read has been counted
when the call returns. -/
theorem C13_state_overwritten_only_by_read_witness :
    1 < sampleRuntime.ctx.devices_.length ∧
    (lostAccessDriver.Poll 140 0).1 = DIERR_INPUTLOST ∧
    (lostAccessDriver.GetDeviceState 140 0).2 = 1 ∧
    (UpdateState lostAccessDriver 0 sampleRuntime.ctx).2.devices_[1]? =
      sampleRuntime.ctx.devices_[1]? ∧
    (UpdateState lostAccessDriver 0 sampleRuntime.ctx).1 = 0 := by
  have h := C13_state_overwritten_only_by_read Nat lostAccessDriver 0 sampleRuntime.ctx 1
    (by decide)
  rcases h with ⟨after, w₁, hget, _, hfinal, hlost, _⟩
  have hskip := (hlost (Or.inl (by decide))).1 (by decide)
  refine ⟨by decide, by decide, by decide, ?_, ?_⟩
  · rw [hget, hskip.1]
    rfl
  · rw [hfinal, hskip.2]
    rfl

/-- C14 (evaluation of the code): for a device with an X axis and an axis
object of unrecognised type whose capability query reports two axes, the
record's axis count is 2 while its axes list has length 1, and the second axis
row of `UpdateFrame` subscripts the axes list out of range. -/
theorem C14_counts_from_capabilities :
    (buildDevice 1 "dial" 1 { dwAxes := 2, dwButtons := 0, dwPOVs := 0 } sampleDial).caps.dwAxes
      = 2 ∧
    (buildDevice 1 "dial" 1 { dwAxes := 2, dwButtons := 0, dwPOVs := 0 } sampleDial).axes.length
      = 1 ∧
    axisRows (buildDevice 1 "dial" 1 { dwAxes := 2, dwButtons := 0, dwPOVs := 0 } sampleDial) =
      [some 0, none] := by
  refine ⟨?_, ?_, ?_⟩ <;> decide

/-- The record's counts are the answer of the capability query, whatever the
enumeration collected. -/
theorem buildDevice_caps (device_guid : GUID) (product_name : String)
    (pDevice : IDirectInputDevice8) (caps : DIDEVCAPS) (objects : List DIDEVICEOBJECTINSTANCE) :
    (buildDevice device_guid product_name pDevice caps objects).caps = caps := rfl

theorem find_erase_if (devices : List (GUID × Device)) (S : List GUID) (g : GUID) (hg : g ∈ S) :
    (erase_if devices (fun kvp => !S.contains kvp.1)).find? (fun kvp => kvp.1 == g) =
      devices.find? (fun kvp => kvp.1 == g) := by
  unfold erase_if
  induction devices with
  | nil => rfl
  | cons kvp rest ih =>
    by_cases hk : kvp.1 = g
    · have hin : kvp.1 ∈ S := hk ▸ hg
      simp [List.filter_cons, hin, hg, List.find?_cons, hk]
    · by_cases hin : kvp.1 ∈ S
      · simpa [List.filter_cons, hin, List.find?_cons, hk] using ih
      · simpa [List.filter_cons, hin, List.find?_cons, hk] using ih

/-- One iteration of the addition pass leaves the entries of the registry in
place and at most appends one entry. -/
theorem discoverDevice_devices (p : Platform) (s : Runtime) (g : GUID) :
    ∃ extra, (discoverDevice p s g).ctx.devices_ = s.ctx.devices_ ++ extra := by
  unfold discoverDevice
  by_cases h0 : (s.ctx.devices_.find? (fun kvp => kvp.1 == g)).isSome = true
  · exact ⟨[], by simp [h0]⟩
  · by_cases h1 : FAILED (p.CreateDevice g).1 = true
    · exact ⟨[], by simp [h0, h1]⟩
    · by_cases h2 : FAILED (p.GetProductName (p.CreateDevice g).2).1 = true
      · exact ⟨[], by simp [h0, h1, h2, Runtime.release]⟩
      · by_cases h3 : FAILED (p.SetCooperativeLevel (p.CreateDevice g).2) = true
        · exact ⟨[], by simp [h0, h1, h2, h3, Runtime.release]⟩
        · by_cases h4 : FAILED (p.SetDataFormat (p.CreateDevice g).2) = true
          · exact ⟨[], by simp [h0, h1, h2, h3, h4, Runtime.release]⟩
          · by_cases h5 : FAILED (p.GetCapabilities (p.CreateDevice g).2).1 = true
            · exact ⟨[], by simp [h0, h1, h2, h3, h4, h5, Runtime.release]⟩
            · refine ⟨[(g, buildDevice g (p.GetProductName (p.CreateDevice g).2).2
                (p.CreateDevice g).2 (p.GetCapabilities (p.CreateDevice g).2).2
                (p.EnumObjects (p.CreateDevice g).2))], ?_⟩
              simp only [h0, h1, h2, h3, h4, h5, if_false, mapAssign]
              simp

theorem foldl_discover_devices (p : Platform) (gs : List GUID) (s : Runtime) :
    ∃ extra, (gs.foldl (discoverDevice p) s).ctx.devices_ = s.ctx.devices_ ++ extra := by
  induction gs generalizing s with
  | nil => exact ⟨[], by simp⟩
  | cons g rest ih =>
    rcases discoverDevice_devices p s g with ⟨e₁, h₁⟩
    rcases ih (discoverDevice p s g) with ⟨e₂, h₂⟩
    exact ⟨e₁ ++ e₂, by rw [List.foldl_cons, h₂, h₁, List.append_assoc]⟩

theorem find_append_of_mem (devices extra : List (GUID × Device)) (g : GUID)
    (h : g ∈ devices.map Prod.fst) :
    (devices ++ extra).find? (fun kvp => kvp.1 == g) = devices.find? (fun kvp => kvp.1 == g) := by
  have hs := (find_isSome_iff devices g).2 h
  rw [List.find?_append]
  cases hf : devices.find? (fun kvp => kvp.1 == g) with
  | none => rw [hf] at hs; simp at hs
  | some x => rfl

theorem discoverDevice_congr (p q : Platform) (s : Runtime) (g : GUID)
    (h : g ∈ s.ctx.keys ∨
      (q.CreateDevice g = p.CreateDevice g ∧
        q.GetProductName (p.CreateDevice g).2 = p.GetProductName (p.CreateDevice g).2 ∧
        q.SetCooperativeLevel (p.CreateDevice g).2 = p.SetCooperativeLevel (p.CreateDevice g).2 ∧
        q.SetDataFormat (p.CreateDevice g).2 = p.SetDataFormat (p.CreateDevice g).2 ∧
        q.GetCapabilities (p.CreateDevice g).2 = p.GetCapabilities (p.CreateDevice g).2 ∧
        q.EnumObjects (p.CreateDevice g).2 = p.EnumObjects (p.CreateDevice g).2)) :
    discoverDevice q s g = discoverDevice p s g := by
  rcases h with hk | ⟨h1, h2, h3, h4, h5, h6⟩
  · have hf := (find_isSome_iff s.ctx.devices_ g).2 hk
    simp [discoverDevice, hf]
  · simp only [discoverDevice, h1, h2, h3, h4, h5, h6]

theorem discoverDevice_keys_mono (p : Platform) (s : Runtime) (g g₁ : GUID)
    (h : g₁ ∈ s.ctx.keys) : g₁ ∈ (discoverDevice p s g).ctx.keys := by
  rcases discoverDevice_devices p s g with ⟨extra, he⟩
  simp only [DirectInputContext.keys, he, List.map_append, List.mem_append]
  exact Or.inl h

theorem foldl_discover_congr (p q : Platform) (gs : List GUID) (s : Runtime)
    (h : ∀ g ∈ gs, g ∈ s.ctx.keys ∨
      (q.CreateDevice g = p.CreateDevice g ∧
        q.GetProductName (p.CreateDevice g).2 = p.GetProductName (p.CreateDevice g).2 ∧
        q.SetCooperativeLevel (p.CreateDevice g).2 = p.SetCooperativeLevel (p.CreateDevice g).2 ∧
        q.SetDataFormat (p.CreateDevice g).2 = p.SetDataFormat (p.CreateDevice g).2 ∧
        q.GetCapabilities (p.CreateDevice g).2 = p.GetCapabilities (p.CreateDevice g).2 ∧
        q.EnumObjects (p.CreateDevice g).2 = p.EnumObjects (p.CreateDevice g).2)) :
    gs.foldl (discoverDevice q) s = gs.foldl (discoverDevice p) s := by
  induction gs generalizing s with
  | nil => rfl
  | cons g rest ih =>
    rw [List.foldl_cons, List.foldl_cons,
      discoverDevice_congr p q s g (h g (List.mem_cons_self _ _))]
    apply ih
    intro g₁ hg₁
    rcases h g₁ (List.mem_cons_of_mem _ hg₁) with hk | ha
    · exact Or.inl (discoverDevice_keys_mono p s g g₁ hk)
    · exact Or.inr ha

/-- C15: with a live subsystem object, `UpdateDetection` returns and leaves
every retained record untouched: the registry afterwards is the list of the
retained entries followed by the new ones, so for every identity that is in
the registry before the call and in the attachment set the record found
afterwards is the record found before; and nothing is opened or enumerated for
such an identity: the outcome is the same on every platform that gives the same
answers for the attached identities that are not in the registry. -/
theorem C15_retained_records_untouched (p : Platform) (s : Runtime) (di : IDirectInput8)
    (h : s.ctx.pDI_ = some di) :
    ∃ s₁, UpdateDetection p s = some s₁ ∧
      (∃ extra, s₁.ctx.devices_ =
        erase_if s.ctx.devices_ (fun kvp => !p.EnumDevices.contains kvp.1) ++ extra) ∧
      (∀ g, g ∈ s.ctx.keys → g ∈ p.EnumDevices → s₁.ctx.GetDevice g = s.ctx.GetDevice g) ∧
      (∀ q : Platform, AgreeOffRegistry p q s.ctx.keys → UpdateDetection q s = some s₁) := by
  refine ⟨_, UpdateDetection_eq p s di h, ?_, ?_, ?_⟩
  · exact foldl_discover_devices p p.EnumDevices _
  · intro g hk hS
    rcases foldl_discover_devices p p.EnumDevices
      { s with ctx := { s.ctx with
          devices_ := erase_if s.ctx.devices_ (fun kvp => !p.EnumDevices.contains kvp.1) } }
      with ⟨extra, he⟩
    have hkept : g ∈ (erase_if s.ctx.devices_
        (fun kvp => !p.EnumDevices.contains kvp.1)).map Prod.fst :=
      (mem_erase_if_keys _ _ _).2 ⟨hk, hS⟩
    simp only [DirectInputContext.GetDevice, he]
    rw [find_append_of_mem _ _ _ hkept, find_erase_if _ _ _ hS]
  · intro q hq
    rw [UpdateDetection_eq q s di h, hq.1]
    congr 1
    apply foldl_discover_congr
    intro g hg
    by_cases hk : g ∈ s.ctx.keys
    · exact Or.inl ((mem_erase_if_keys _ _ _).2 ⟨hk, hg⟩)
    · exact Or.inr (hq.2 g hg hk)

/-- Witness of C15: the registry `{10, 40}` against the attachment set
`{10, 20, 30}`; the record of identity 10 is the one found before, also on the
platform that could not open identity 10 again. -/
theorem C15_retained_records_untouched_witness :
    sampleRuntime.ctx.pDI_ = some 1 ∧
    ∃ s₁, UpdateDetection samplePlatform sampleRuntime = some s₁ ∧
      s₁.ctx.GetDevice 10 = sampleRuntime.ctx.GetDevice 10 ∧
      UpdateDetection samplePlatformClosed10 sampleRuntime = some s₁ := by
  rcases C15_retained_records_untouched samplePlatform sampleRuntime 1 rfl with
    ⟨s₁, hs, _, hrec, hq⟩
  refine ⟨rfl, s₁, hs, hrec 10 (by decide) (by decide), hq samplePlatformClosed10 ⟨rfl, ?_⟩⟩
  decide

/-! ## Claims about the bounds of the state arrays -/

theorem povSlot_povAt (i : Nat) (h : i < 4) : povSlot (povAt i).offset = i := by
  interval_cases i <;> decide

theorem buttonSlot_buttonAt (i : Nat) (h : i < 128) : buttonSlot (buttonAt i).offset = i := by
  simp only [buttonSlot, buttonAt, toDWORD, DIJOFS_BUTTON]
  omega

/-- With at most 4 hat objects and at most 128 button objects every stored
descriptor subscripts its state array in range. -/
theorem slots_in_range_of_bounded (device_guid : GUID) (product_name : String)
    (pDevice : IDirectInputDevice8) (caps : DIDEVCAPS) (objects : List DIDEVICEOBJECTINSTANCE)
    (hh : objects.countP isHat ≤ 4) (hb : objects.countP isButton ≤ 128) :
    (∀ input ∈ (buildDevice device_guid product_name pDevice caps objects).povs,
      povSlot input.offset < 4) ∧
    (∀ input ∈ (buildDevice device_guid product_name pDevice caps objects).buttons,
      buttonSlot input.offset < 128) := by
  simp only [buildDevice, enumerateAndSort]
  constructor
  · intro input hin
    have hm := (sortByOffset_perm _).mem_iff.1 hin
    rw [enum_povs] at hm
    rcases List.mem_map.1 hm with ⟨i, hi, rfl⟩
    rw [List.mem_range] at hi
    rw [povSlot_povAt i (by omega)]
    omega
  · intro input hin
    have hm := (sortByOffset_perm _).mem_iff.1 hin
    rw [enum_buttons] at hm
    rcases List.mem_map.1 hm with ⟨i, hi, rfl⟩
    rw [List.mem_range] at hi
    rw [buttonSlot_buttonAt i (by omega)]
    omega

set_option maxRecDepth 100000 in
theorem sampleButton_isButton : ∀ n : Fin 129, isButton (sampleButton n.val) = true := by
  decide

theorem sampleManyButtons_count : sampleManyButtons.countP isButton = 129 := by
  have hall : ∀ o ∈ sampleManyButtons, isButton o = true := by
    intro o ho
    rcases List.mem_map.1 ho with ⟨n, hn, rfl⟩
    rw [List.mem_range] at hn
    exact sampleButton_isButton ⟨n, hn⟩
  rw [List.countP_eq_length.2 hall]
  simp [sampleManyButtons]

theorem manyButtons_last :
    (buildDevice 1 "pad" 1 { dwAxes := 0, dwButtons := 129, dwPOVs := 0 }
      sampleManyButtons).buttons[128]? =
      some { type := InputType.kButton, index := 128, offset := 176 } := by
  simp only [buildDevice, enumerateAndSort]
  rw [enum_buttons, sampleManyButtons_count]
  unfold sortByOffset
  rw [List.Sorted.insertionSort_eq (buttonAt_sorted 129 (by norm_num)), List.getElem?_map,
    List.getElem?_range (by norm_num)]
  rfl

/-- C16 (evaluation of the code): for a device with five hat objects the hats
list has length 5, its last descriptor has offset 48 and subscript
`(48 - 32) / 4 = 4` of the four-entry hat array, so `GetPovValue(4)` reads out
of range; for a device with 129 button objects the descriptor at index 128 has
offset 176 and subscript 128 of the 128-entry button array. -/
theorem C16_fifth_hat_out_of_range :
    (buildDevice 1 "pad" 1 { dwAxes := 0, dwButtons := 0, dwPOVs := 5 }
      sampleFiveHats).povs.map Input.offset = [32, 36, 40, 44, 48] ∧
    povSlot 48 = 4 ∧
    (buildDevice 1 "pad" 1 { dwAxes := 0, dwButtons := 0, dwPOVs := 5 }
      sampleFiveHats).state.rgdwPOV.length = 4 ∧
    (buildDevice 1 "pad" 1 { dwAxes := 0, dwButtons := 0, dwPOVs := 5 }
      sampleFiveHats).GetPovValue 4 = none ∧
    povRows (buildDevice 1 "pad" 1 { dwAxes := 0, dwButtons := 0, dwPOVs := 5 }
      sampleFiveHats) = [some 0, some 0, some 0, some 0, none] ∧
    (buildDevice 1 "pad" 1 { dwAxes := 0, dwButtons := 129, dwPOVs := 0 }
      sampleManyButtons).buttons[128]? =
      some { type := InputType.kButton, index := 128, offset := 176 } ∧
    buttonSlot 176 = 128 ∧
    (buildDevice 1 "pad" 1 { dwAxes := 0, dwButtons := 129, dwPOVs := 0 }
      sampleManyButtons).state.rgbButtons.length = 128 := by
  refine ⟨by decide, by decide, by decide, by decide, by decide, manyButtons_last, by decide,
    List.length_replicate _ _⟩

end DirectInput
